import Mathlib

/-
Verification of the camdkit OSVP metadata model (src/src/main/python/camdkit/model.py)
against its natural-language specification.

The Python values manipulated by the model are embedded as the inductive type
`PyVal` below.  The descriptor operations (`validate`, `to_json`, `from_json`,
`make_json_schema`) of each field descriptor defined in model.py are translated
function-for-function; fallible Python code (code that can raise) returns
`Option`.  The supporting value types and enumerations (Timecode, Synchronization,
Encoders, ...) are declared in camdkit/framework.py, which is not part of the
given sources; their shapes are modelled from the specification where noted.
-/

/-- Modelled from the spec: `TimecodeFormat` lives in camdkit/framework.py (absent
from the given sources).  Its member values are attested in model.py by the
`timecode` JSON-schema enum `["24", "24D", "25", "30", "30D"]` (a fixed
enumeration of drop/non-drop rates, spec section 4.1). -/
inductive TcFormat where
  | f24
  | f24D
  | f25
  | f30
  | f30D
deriving DecidableEq, Repr

/-- Wire string of a timecode format (the value produced by `str(format)` in
`TimingTimecode.to_json`, matching the schema enum strings in model.py). -/
def TcFormat.toStr : TcFormat → String
  | .f24 => "24"
  | .f24D => "24D"
  | .f25 => "25"
  | .f30 => "30"
  | .f30D => "30D"

/-- Modelled from the spec: `TimecodeFormat.from_string` (camdkit/framework.py,
absent from the given sources) parses the wire string back to the enumeration
member, the inverse of `str` per the round-trip law of spec section 8; unknown
strings raise, hence `Option`. -/
def TcFormat.fromString (s : String) : Option TcFormat :=
  if s = "24" then some .f24
  else if s = "24D" then some .f24D
  else if s = "25" then some .f25
  else if s = "30" then some .f30
  else if s = "30D" then some .f30D
  else Option.none

/-- Modelled from the spec: `TimecodeFormat.to_int` (camdkit/framework.py, absent
from the given sources) returns the frame-count ceiling of the format — "frames
in [0, frame-count-for-format)" with `{frames: 29, format: "30D"}` valid (spec
sections 4.1 and 8), so the drop-frame variants share the ceiling of their
integer rate. -/
def TcFormat.toInt : TcFormat → Int
  | .f24 => 24
  | .f24D => 24
  | .f25 => 25
  | .f30 => 30
  | .f30D => 30

/-- Modelled from the spec: `SynchronizationSourceEnum` (camdkit/framework.py,
absent from the given sources) is a fixed enumeration of synchronization
sources; the specification attests the member with wire value "ptp" (spec
section 8).  Which further members exist does not affect any claim, since
`TimingSynchronization.validate` and its JSON schema both defer to the same
enumeration. -/
inductive SyncSource where
  | ptp
deriving DecidableEq, Repr

/-- Wire string of a synchronization source member.  Modelled from the spec: the
round-trip and schema-conformance properties of spec section 8 require `str` of
a member to be its wire value and a member to compare equal to that string
(a Python `str`-mixin enumeration). -/
def SyncSource.toStr : SyncSource → String
  | .ptp => "ptp"

/-- Embedding of the Python values handled by the camdkit model: JSON-compatible
primitives (`none`, `bool`, `int`, `float`, `str`, tuples/lists, string-keyed
dicts) plus one constructor per value-type dataclass of camdkit/framework.py
(each holding arbitrary Python values in its declared attributes) and one
constructor per enumeration member kind.  Python floats are represented as
rational numbers: the model only ever compares them (no arithmetic), so no
floating-point rounding behaviour is involved.  Python tuples and lists are both
represented by `list`; the distinction never decides a claim.  Dataclass field
order follows the keyword constructions and `asdict` accesses in model.py. -/
inductive PyVal where
  | none
  | bool (b : Bool)
  | int (n : Int)
  | float (q : ℚ)
  | str (s : String)
  | list (xs : List PyVal)
  | dict (kvs : List (String × PyVal))
  | vector3 (x y z : PyVal)
  | rotator3 (pan tilt roll : PyVal)
  | transform (translation rotation scale name parent : PyVal)
  | timecode (hours minutes seconds frames format : PyVal)
  | timestamp (seconds nanoseconds attoseconds : PyVal)
  | synchronization (frequency locked source ptp_master ptp_offset ptp_domain offsets enabled : PyVal)
  | syncOffsets (translation rotation encoders : PyVal)
  | encoders (focus iris zoom : PyVal)
  | orientations (horizontal vertical : PyVal)
  | exposureFalloff (a1 a2 a3 : PyVal)
  | tcFormat (f : TcFormat)
  | syncSource (s : SyncSource)
deriving Repr

mutual

/-- Python `==` on the embedded values: numeric cross-type equality between
`bool`, `int` and `float` (in Python `True == 1` and `1 == 1.0`); dataclass
instances compare fieldwise and only against the same class; a dataclass never
equals a plain dict; enumeration members equal their wire string (`str`-mixin
enumerations, see `SyncSource.toStr`).  Python dict equality is key-order
insensitive; the dicts compared in this development are always built in the
same field order, so the order-sensitive comparison used here agrees with
Python on every value it is applied to. -/
def pyEq : PyVal → PyVal → Bool
  | .none, .none => true
  | .bool a, .bool b => a == b
  | .bool a, .int n => (if a then (1 : Int) else 0) == n
  | .bool a, .float q => (if a then (1 : ℚ) else 0) == q
  | .int n, .bool b => n == (if b then (1 : Int) else 0)
  | .int m, .int n => m == n
  | .int m, .float q => ((m : ℚ)) == q
  | .float q, .bool b => q == (if b then (1 : ℚ) else 0)
  | .float q, .int n => q == ((n : ℚ))
  | .float p, .float q => p == q
  | .str a, .str b => a == b
  | .str a, .tcFormat f => a == f.toStr
  | .tcFormat f, .str a => f.toStr == a
  | .str a, .syncSource s => a == s.toStr
  | .syncSource s, .str a => s.toStr == a
  | .tcFormat f, .tcFormat g => f == g
  | .syncSource s, .syncSource t => s == t
  | .list xs, .list ys => pyEqList xs ys
  | .dict xs, .dict ys => pyEqKVs xs ys
  | .vector3 a b c, .vector3 d e f => pyEq a d && pyEq b e && pyEq c f
  | .rotator3 a b c, .rotator3 d e f => pyEq a d && pyEq b e && pyEq c f
  | .transform a b c d e, .transform a' b' c' d' e' =>
      pyEq a a' && pyEq b b' && pyEq c c' && pyEq d d' && pyEq e e'
  | .timecode a b c d e, .timecode a' b' c' d' e' =>
      pyEq a a' && pyEq b b' && pyEq c c' && pyEq d d' && pyEq e e'
  | .timestamp a b c, .timestamp a' b' c' => pyEq a a' && pyEq b b' && pyEq c c'
  | .synchronization a b c d e f g h, .synchronization a' b' c' d' e' f' g' h' =>
      pyEq a a' && pyEq b b' && pyEq c c' && pyEq d d' &&
      pyEq e e' && pyEq f f' && pyEq g g' && pyEq h h'
  | .syncOffsets a b c, .syncOffsets a' b' c' => pyEq a a' && pyEq b b' && pyEq c c'
  | .encoders a b c, .encoders a' b' c' => pyEq a a' && pyEq b b' && pyEq c c'
  | .orientations a b, .orientations a' b' => pyEq a a' && pyEq b b'
  | .exposureFalloff a b c, .exposureFalloff a' b' c' => pyEq a a' && pyEq b b' && pyEq c c'
  | _, _ => false

/-- Pointwise Python `==` on sequences. -/
def pyEqList : List PyVal → List PyVal → Bool
  | [], [] => true
  | x :: xs, y :: ys => pyEq x y && pyEqList xs ys
  | _, _ => false

/-- Pointwise Python `==` on dict entries. -/
def pyEqKVs : List (String × PyVal) → List (String × PyVal) → Bool
  | [], [] => true
  | (k, v) :: xs, (k', v') :: ys => k == k' && pyEq v v' && pyEqKVs xs ys
  | _, _ => false

end

/-- Entries of a Python dict whose value is not `None` (the comprehension
filter `if v is not None` used by several `to_json` methods and the
`dict_factory` of `Transforms.to_json`). -/
def filterNones (kvs : List (String × PyVal)) : List (String × PyVal) :=
  kvs.filter (fun kv => match kv.2 with | .none => false | _ => true)

mutual

/-- `dataclasses.asdict(v)` recursion on the embedded values, as used by the
`to_json` methods of model.py.  With `drop := true` it is the variant of
`Transforms.to_json`, whose `dict_factory` omits `None`-valued keys when
converting a dataclass (the factory is applied at every dataclass level, but
not to plain dicts, which Python rebuilds with their own constructor).
Dataclass instances become dicts of their fields in declaration order;
enumeration members and primitives are returned unchanged (Python deep-copies
them); tuples, lists and plain dicts are converted elementwise. -/
def asdictF (drop : Bool) : PyVal → PyVal
  | .vector3 x y z =>
      mkDcDict drop [("x", asdictF drop x), ("y", asdictF drop y), ("z", asdictF drop z)]
  | .rotator3 p t r =>
      mkDcDict drop [("pan", asdictF drop p), ("tilt", asdictF drop t), ("roll", asdictF drop r)]
  | .transform tr rot sc nm par =>
      mkDcDict drop [("translation", asdictF drop tr), ("rotation", asdictF drop rot),
        ("scale", asdictF drop sc), ("name", asdictF drop nm), ("parent", asdictF drop par)]
  | .timecode hh mm ss ff fmt =>
      mkDcDict drop [("hours", asdictF drop hh), ("minutes", asdictF drop mm),
        ("seconds", asdictF drop ss), ("frames", asdictF drop ff), ("format", asdictF drop fmt)]
  | .timestamp s n a =>
      mkDcDict drop [("seconds", asdictF drop s), ("nanoseconds", asdictF drop n),
        ("attoseconds", asdictF drop a)]
  | .synchronization fr lk src mac off dom offs en =>
      mkDcDict drop [("frequency", asdictF drop fr), ("locked", asdictF drop lk),
        ("source", asdictF drop src), ("ptp_master", asdictF drop mac),
        ("ptp_offset", asdictF drop off), ("ptp_domain", asdictF drop dom),
        ("offsets", asdictF drop offs), ("enabled", asdictF drop en)]
  | .syncOffsets a b c =>
      mkDcDict drop [("translation", asdictF drop a), ("rotation", asdictF drop b),
        ("encoders", asdictF drop c)]
  | .encoders f i z =>
      mkDcDict drop [("focus", asdictF drop f), ("iris", asdictF drop i), ("zoom", asdictF drop z)]
  | .orientations h v =>
      mkDcDict drop [("horizontal", asdictF drop h), ("vertical", asdictF drop v)]
  | .exposureFalloff a b c =>
      mkDcDict drop [("a1", asdictF drop a), ("a2", asdictF drop b), ("a3", asdictF drop c)]
  | .list xs => .list (asdictFList drop xs)
  | .dict kvs => .dict (asdictFKVs drop kvs)
  | v => v

/-- Elementwise `asdict` conversion of a Python tuple or list. -/
def asdictFList (drop : Bool) : List PyVal → List PyVal
  | [] => []
  | x :: xs => asdictF drop x :: asdictFList drop xs

/-- Valuewise `asdict` conversion of a plain Python dict (no key filtering:
`dict_factory` only applies to dicts derived from dataclasses). -/
def asdictFKVs (drop : Bool) : List (String × PyVal) → List (String × PyVal)
  | [] => []
  | (k, v) :: kvs => (k, asdictF drop v) :: asdictFKVs drop kvs

/-- Dict built by `asdict` from one dataclass: subject to the `dict_factory`
`None`-filter exactly when `drop` is set. -/
def mkDcDict (drop : Bool) (kvs : List (String × PyVal)) : PyVal :=
  .dict (if drop then filterNones kvs else kvs)

end

/-- First-occurrence lookup in a Python dict.  The dicts built in this
development never repeat a key, matching Python dict semantics. -/
def getKey : List (String × PyVal) → String → Option PyVal
  | [], _ => Option.none
  | (k, v) :: rest, key => if k = key then some v else getKey rest key

/-- Lookup with the `None` default used for optional dataclass fields in
keyword construction. -/
def getKeyD (kvs : List (String × PyVal)) (key : String) : PyVal :=
  (getKey kvs key).getD .none

/-- Every key of the dict is an accepted keyword of the dataclass constructor
(`SomeDataclass(**value)` raises `TypeError` on an unexpected keyword). -/
def keysIn (kvs : List (String × PyVal)) (allowed : List String) : Bool :=
  kvs.all (fun kv => allowed.contains kv.1)

/-- `isinstance(v, int)` together with the integer value: Python `bool` is a
subclass of `int` (and registered with `numbers.Integral`), so booleans count
as integers with values 0 and 1. -/
def pyIntLike : PyVal → Option Int
  | .int n => some n
  | .bool b => some (if b then 1 else 0)
  | _ => Option.none

/-- `isinstance(v, numbers.Real)` together with the numeric value: `int`,
`bool` and `float` are all `numbers.Real` in Python. -/
def pyRealVal : PyVal → Option ℚ
  | .int n => some ((n : ℚ))
  | .bool b => some (if b then 1 else 0)
  | .float q => some q
  | _ => Option.none

/-- Python `int(v)`: identity on integers, 0/1 on booleans, truncation toward
zero on floats, decimal parsing on strings (exotic string forms — surrounding
whitespace, underscores, non-decimal bases — are not modelled; no claim
involves them), and a `TypeError` (here `none`) on anything else. -/
def pyIntCast : PyVal → Option PyVal
  | .int n => some (.int n)
  | .bool b => some (.int (if b then 1 else 0))
  | .float q => some (.int (Int.tdiv q.num (q.den : Int)))
  | .str s => (s.toInt?).map (fun n => .int n)
  | _ => Option.none

/-- `str(v)` for the values that `to_json` methods apply it to: enumeration
members yield their wire value (see `SyncSource.toStr`); strings, integers,
booleans and `None` print as in Python.  `str()` of floats, containers and
dataclasses (Python repr strings) is not modelled — those inputs are
unreachable from every claim, since the descriptors' `validate` forces the
converted field to be an enumeration member. -/
def pyStrOpt : PyVal → Option String
  | .str s => some s
  | .syncSource s => some s.toStr
  | .tcFormat f => some f.toStr
  | .int n => some (toString n)
  | .bool b => some (if b then "True" else "False")
  | .none => some "None"
  | _ => Option.none

/-- ShutterAngle.validate (model.py lines 172-176): an integer in
(0 .. 360000].  `numbers.Integral` admits Python booleans. -/
def ShutterAngle.validate (v : PyVal) : Bool :=
  match pyIntLike v with
  | some n => decide (0 < n) && decide (n ≤ 360000)
  | _ => false

/-- ShutterAngle.to_json (model.py lines 178-180): the identity. -/
def ShutterAngle.to_json (v : PyVal) : Option PyVal :=
  some v

/-- ShutterAngle.from_json (model.py lines 182-184): `int(value)`. -/
def ShutterAngle.from_json (v : PyVal) : Option PyVal :=
  pyIntCast v

/-- Lowercase hexadecimal digit, the character class `[0-9a-f]` of the
MAC-address pattern in `TimingSynchronization.validate`. -/
def isHexL (c : Char) : Bool :=
  c.isDigit || ('a' ≤ c && c ≤ 'f')

/-- Decision procedure for the anchored body of the MAC-address regular
expression of `TimingSynchronization.validate` (model.py line 416):
two lowercase hex digits, an optional separator out of `-`/`:` captured by
group 1, then five more hex pairs each preceded by a backreference to that
captured separator.  Its language: twelve hex digits, either contiguous or in
six pairs joined by a single consistent separator character. -/
def macBody : List Char → Bool
  | [a, b, c, d, e, f, g, h, i, j, k, l] =>
      isHexL a && isHexL b && isHexL c && isHexL d && isHexL e && isHexL f &&
      isHexL g && isHexL h && isHexL i && isHexL j && isHexL k && isHexL l
  | [a, b, s1, c, d, s2, e, f, s3, g, h, s4, i, j, s5, k, l] =>
      (s1 == '-' || s1 == ':') && s2 == s1 && s3 == s1 && s4 == s1 && s5 == s1 &&
      isHexL a && isHexL b && isHexL c && isHexL d && isHexL e && isHexL f &&
      isHexL g && isHexL h && isHexL i && isHexL j && isHexL k && isHexL l
  | _ => false

/-- `re.match` of the MAC pattern against a character sequence: anchored at
the start, and the trailing `$` also matches just before one final newline (a
Python `re` peculiarity, modelled for fidelity). -/
def macMatchLower (cs : List Char) : Bool :=
  macBody cs ||
    (match cs.getLast? with
     | some c => c == '\n' && macBody cs.dropLast
     | _ => false)

/-- The MAC-address test applied to `ptp_master` by
`TimingSynchronization.validate`: the string is lowercased first
(`value.ptp_master.lower()`; `Char.toLower` covers the ASCII range, which is
all the pattern can subsequently accept).  -/
def pyMacOk (s : String) : Bool :=
  macMatchLower (s.data.map Char.toLower)

/-- Modelled from the spec: `SynchronizationOffsets.validate` belongs to
camdkit/framework.py (absent from the given sources).  The specification's
synchronization row and the schema fragment in model.py describe the offsets
object as optional real-valued `translation`/`rotation`/`encoders` entries with
none of them required, so each attribute is absent or a float.  A non-`None`,
non-dataclass `offsets` attribute would make the Python call
`value.offsets.validate()` raise; such values are not claimed to validate and
are mapped to `false` here. -/
def offsetsFieldOk : PyVal → Bool
  | .none => true
  | .float _ => true
  | _ => false

/-- The frequency clause of `TimingSynchronization.validate`:
`isinstance(value.frequency, float) and value.frequency > 0.0`. -/
def isPosFloat : PyVal → Bool
  | .float q => decide (0 < q)
  | _ => false

/-- `isinstance(v, bool)`. -/
def isBoolPy : PyVal → Bool
  | .bool _ => true
  | _ => false

/-- `isinstance(v, SynchronizationSourceEnum)`. -/
def isSourceEnum : PyVal → Bool
  | .syncSource _ => true
  | _ => false

/-- The `ptp_master` clause: absent, or a string whose lowercase form matches
the MAC-address pattern. -/
def optMacOk : PyVal → Bool
  | .none => true
  | .str s => pyMacOk s
  | _ => false

/-- The `ptp_offset` clause: absent or a float. -/
def optFloatPy : PyVal → Bool
  | .none => true
  | .float _ => true
  | _ => false

/-- The `ptp_domain` clause: absent, or a non-negative Python int (booleans
are ints with values 0 and 1, both non-negative). -/
def optDomOk : PyVal → Bool
  | .none => true
  | .int n => decide (0 ≤ n)
  | .bool _ => true
  | _ => false

/-- The `offsets` clause: absent or a valid offsets object (see
`offsetsFieldOk`). -/
def optOffsetsOk : PyVal → Bool
  | .none => true
  | .syncOffsets a b c => offsetsFieldOk a && offsetsFieldOk b && offsetsFieldOk c
  | _ => false

/-- The `enabled` clause: absent or a bool. -/
def optBoolPy : PyVal → Bool
  | .none => true
  | .bool _ => true
  | _ => false

/-- TimingSynchronization.validate (model.py lines 401-428): frequency a
strictly positive float, locked a bool, source a member of the source
enumeration, and each optional attribute individually checked (MAC pattern for
`ptp_master`; float for `ptp_offset`; non-negative int — Python `int` includes
`bool` — for `ptp_domain`; offsets object validity; bool for `enabled`). -/
def TimingSynchronization.validate : PyVal → Bool
  | .synchronization fr lk src mac off dom offs en =>
      isPosFloat fr && isBoolPy lk && isSourceEnum src && optMacOk mac &&
      optFloatPy off && optDomOk dom && optOffsetsOk offs && optBoolPy en
  | _ => false

/-- Replace the value at key "source" of the dict with `str` of itself
(`d["source"] = str(d["source"])` in `TimingSynchronization.to_json`); reading
a missing "source" key raises `KeyError`, and `str` of an unmodelled value is
`none` (see `pyStrOpt`). -/
def setSourceStr (kvs : List (String × PyVal)) : Option (List (String × PyVal)) :=
  match getKey kvs "source" with
  | some v =>
      (pyStrOpt v).map (fun s =>
        kvs.map (fun kv => if kv.1 = "source" then (kv.1, PyVal.str s) else kv))
  | _ => Option.none

/-- TimingSynchronization.to_json (model.py lines 430-434): `asdict`, drop the
`None`-valued top-level keys, then stringify the source enumeration member.
Non-dataclass arguments make `asdict` raise. -/
def TimingSynchronization.to_json : PyVal → Option PyVal
  | .synchronization fr lk src mac off dom offs en =>
      (setSourceStr (filterNones
        [("frequency", asdictF false fr), ("locked", asdictF false lk),
         ("source", asdictF false src), ("ptp_master", asdictF false mac),
         ("ptp_offset", asdictF false off), ("ptp_domain", asdictF false dom),
         ("offsets", asdictF false offs), ("enabled", asdictF false en)])).map PyVal.dict
  | _ => Option.none

/-- Keyword construction `Synchronization(**value)` used by
`TimingSynchronization.from_json`.  Modelled from the spec: the dataclass
requires `frequency`, `locked` and `source` and defaults every optional PTP
attribute to `None` (spec sections 4.1 and 9, optional sub-fields as explicit
absent markers); unexpected keywords raise. -/
def mkSynchronization (kvs : List (String × PyVal)) : Option PyVal :=
  if keysIn kvs ["frequency", "locked", "source", "ptp_master", "ptp_offset",
                 "ptp_domain", "offsets", "enabled"] then
    match getKey kvs "frequency", getKey kvs "locked", getKey kvs "source" with
    | some fr, some lk, some src =>
        some (.synchronization fr lk src (getKeyD kvs "ptp_master")
          (getKeyD kvs "ptp_offset") (getKeyD kvs "ptp_domain")
          (getKeyD kvs "offsets") (getKeyD kvs "enabled"))
    | _, _, _ => Option.none
  else Option.none

/-- TimingSynchronization.from_json (model.py lines 436-438):
`Synchronization(**value)`. -/
def TimingSynchronization.from_json : PyVal → Option PyVal
  | .dict kvs => mkSynchronization kvs
  | _ => Option.none

/-- Python `v == None` for the embedded values (none of the modelled values
customizes equality against `None`). -/
def isNonePy : PyVal → Bool
  | .none => true
  | _ => false

/-- One FIZ encoder attribute as tested by `LensEncoders.validate`: absent, or
a float within [0.0, 1.0] (`isinstance(test, float)`, so integers and booleans
are rejected). -/
def encOk : PyVal → Bool
  | .none => true
  | .float q => decide (0 ≤ q) && decide (q ≤ 1)
  | _ => false

/-- LensEncoders.validate (model.py lines 475-487): an Encoders value with at
least one of focus/iris/zoom present and every present attribute a float in
[0.0, 1.0]. -/
def LensEncoders.validate : PyVal → Bool
  | .encoders f i z =>
      !(isNonePy f && isNonePy i && isNonePy z) &&
      encOk f && encOk i && encOk z
  | _ => false

/-- LensEncoders.to_json (model.py lines 489-491): `asdict` with the
`None`-valued keys dropped. -/
def LensEncoders.to_json : PyVal → Option PyVal
  | .encoders f i z =>
      some (.dict (filterNones
        [("focus", asdictF false f), ("iris", asdictF false i), ("zoom", asdictF false z)]))
  | _ => Option.none

/-- Keyword construction `Encoders(**value)`.  Modelled from the spec: each of
the three FIZ attributes is optional with default `None` ("at least one of
focus/iris/zoom present" is enforced by `validate`, not by construction). -/
def mkEncoders (kvs : List (String × PyVal)) : Option PyVal :=
  if keysIn kvs ["focus", "iris", "zoom"] then
    some (.encoders (getKeyD kvs "focus") (getKeyD kvs "iris") (getKeyD kvs "zoom"))
  else Option.none

/-- LensEncoders.from_json (model.py lines 493-495): `Encoders(**value)`. -/
def LensEncoders.from_json : PyVal → Option PyVal
  | .dict kvs => mkEncoders kvs
  | _ => Option.none

/-- Maximum of the 48-bit unsigned range for `Timestamp.seconds`
(`UINT48_MAX` of camdkit/framework.py; the bound is given by spec
section 4.1: seconds in [0, 2^48 - 1]). -/
def UINT48_MAX : Int := 2 ^ 48 - 1

/-- Maximum of the 32-bit unsigned range for nanoseconds and attoseconds
(`UINT_MAX` of camdkit/framework.py; spec section 4.1). -/
def UINT_MAX : Int := 2 ^ 32 - 1

/-- An integer attribute within `[0, hi]` as tested by
`TimingTimestamp.validate` (`isinstance(v, int)` admits booleans). -/
def intInCl (v : PyVal) (hi : Int) : Bool :=
  match pyIntLike v with
  | some n => decide (0 ≤ n) && decide (n ≤ hi)
  | _ => false

/-- TimingTimestamp.validate (model.py lines 542-557): seconds in
[0, 2^48 - 1], nanoseconds in [0, 2^32 - 1], attoseconds absent or in
[0, 2^32 - 1]. -/
def TimingTimestamp.validate : PyVal → Bool
  | .timestamp s n a =>
      intInCl s UINT48_MAX && intInCl n UINT_MAX &&
      (match a with | .none => true | _ => intInCl a UINT_MAX)
  | _ => false

/-- TimingTimestamp.to_json (model.py lines 559-564): `asdict`, then delete the
`attoseconds` key when its value equals `None`. -/
def TimingTimestamp.to_json : PyVal → Option PyVal
  | .timestamp s n a =>
      some (.dict ([("seconds", asdictF false s), ("nanoseconds", asdictF false n)] ++
        (match a with | .none => [] | _ => [("attoseconds", asdictF false a)])))
  | _ => Option.none

/-- Keyword construction `Timestamp(**value)`.  Modelled from the spec:
`seconds` and `nanoseconds` are required, `attoseconds` is optional with
default `None` (spec section 4.1: "optional attoseconds"). -/
def mkTimestamp (kvs : List (String × PyVal)) : Option PyVal :=
  if keysIn kvs ["seconds", "nanoseconds", "attoseconds"] then
    match getKey kvs "seconds", getKey kvs "nanoseconds" with
    | some s, some n => some (.timestamp s n (getKeyD kvs "attoseconds"))
    | _, _ => Option.none
  else Option.none

/-- TimingTimestamp.from_json (model.py lines 566-568): `Timestamp(**value)`. -/
def TimingTimestamp.from_json : PyVal → Option PyVal
  | .dict kvs => mkTimestamp kvs
  | _ => Option.none

/-- An integer attribute within `[lo, hi)` as tested by
`TimingTimecode.validate` (`isinstance(v, int)` admits booleans). -/
def intInHo (v : PyVal) (lo hi : Int) : Bool :=
  match pyIntLike v with
  | some n => decide (lo ≤ n) && decide (n < hi)
  | _ => false

/-- TimingTimecode.validate (model.py lines 622-641): a Timecode whose format
is a TimecodeFormat member, hours in [0,24), minutes and seconds in [0,60),
and frames in [0, frame count of the format). -/
def TimingTimecode.validate : PyVal → Bool
  | .timecode hh mm ss ff fmt =>
      match fmt with
      | .tcFormat f =>
          intInHo hh 0 24 && intInHo mm 0 60 && intInHo ss 0 60 &&
          intInHo ff 0 f.toInt
      | _ => false
  | _ => false

/-- TimingTimecode.to_json (model.py lines 643-647): `asdict`, then stringify
the format member. -/
def TimingTimecode.to_json : PyVal → Option PyVal
  | .timecode hh mm ss ff fmt =>
      (pyStrOpt (asdictF false fmt)).map (fun s =>
        .dict [("hours", asdictF false hh), ("minutes", asdictF false mm),
               ("seconds", asdictF false ss), ("frames", asdictF false ff),
               ("format", .str s)])
  | _ => Option.none

/-- TimingTimecode.from_json (model.py lines 649-652): positional
`Timecode(value["hours"], ..., TimecodeFormat.from_string(value["format"]))`;
a missing key or an unknown format string raises. -/
def TimingTimecode.from_json : PyVal → Option PyVal
  | .dict kvs =>
      match getKey kvs "hours", getKey kvs "minutes", getKey kvs "seconds",
            getKey kvs "frames", getKey kvs "format" with
      | some hh, some mm, some ss, some ff, some fv =>
          match fv with
          | .str fs => (TcFormat.fromString fs).map (fun f => .timecode hh mm ss ff (.tcFormat f))
          | _ => Option.none
      | _, _, _, _, _ => Option.none
  | _ => Option.none

/-- A non-negative real attribute as tested by `LensFoVScale.validate`
(`isinstance(v, numbers.Real)` and not below 0.0). -/
def realNonNeg (v : PyVal) : Bool :=
  match pyRealVal v with
  | some q => decide (0 ≤ q)
  | _ => false

/-- LensFoVScale.validate (model.py lines 696-709): an Orientations value whose
horizontal and vertical attributes are each a non-negative real. -/
def LensFoVScale.validate : PyVal → Bool
  | .orientations h v => realNonNeg h && realNonNeg v
  | _ => false

/-- LensFoVScale.to_json (model.py lines 711-713): plain `asdict`. -/
def LensFoVScale.to_json : PyVal → Option PyVal
  | .orientations h v =>
      some (.dict [("horizontal", asdictF false h), ("vertical", asdictF false v)])
  | _ => Option.none

/-- Keyword construction `Orientations(**value)`.  Modelled from the spec: both
attributes are required ("horizontal and vertical each a non-negative real",
spec section 4.1). -/
def mkOrientations (kvs : List (String × PyVal)) : Option PyVal :=
  if keysIn kvs ["horizontal", "vertical"] then
    match getKey kvs "horizontal", getKey kvs "vertical" with
    | some h, some v => some (.orientations h v)
    | _, _ => Option.none
  else Option.none

/-- LensFoVScale.from_json (model.py lines 715-717): `Orientations(**value)`. -/
def LensFoVScale.from_json : PyVal → Option PyVal
  | .dict kvs => mkOrientations kvs
  | _ => Option.none

/-- A coefficient attribute as tested by `LensExposureFalloff.validate`:
absent or `numbers.Real`. -/
def optReal : PyVal → Bool
  | .none => true
  | v => (pyRealVal v).isSome

/-- LensExposureFalloff.validate (model.py lines 748-763): an ExposureFalloff
value with `a1` present and every present coefficient a real number. -/
def LensExposureFalloff.validate : PyVal → Bool
  | .exposureFalloff a1 a2 a3 =>
      !(isNonePy a1) &&
      optReal a1 && optReal a2 && optReal a3
  | _ => false

/-- LensExposureFalloff.to_json (model.py lines 765-767): plain `asdict`
(`None`-valued coefficients are kept as JSON nulls). -/
def LensExposureFalloff.to_json : PyVal → Option PyVal
  | .exposureFalloff a1 a2 a3 =>
      some (.dict [("a1", asdictF false a1), ("a2", asdictF false a2), ("a3", asdictF false a3)])
  | _ => Option.none

/-- Keyword construction `ExposureFalloff(**value)`.  Modelled from the spec:
all three coefficients default to `None` (`validate`, not construction,
enforces the required `a1`). -/
def mkExposureFalloff (kvs : List (String × PyVal)) : Option PyVal :=
  if keysIn kvs ["a1", "a2", "a3"] then
    some (.exposureFalloff (getKeyD kvs "a1") (getKeyD kvs "a2") (getKeyD kvs "a3"))
  else Option.none

/-- LensExposureFalloff.from_json (model.py lines 769-771):
`ExposureFalloff(**value)`. -/
def LensExposureFalloff.from_json : PyVal → Option PyVal
  | .dict kvs => mkExposureFalloff kvs
  | _ => Option.none

/-- A transform component accepted by the per-transform checks of
`Transforms.validate` (model.py lines 273-300): the transform dataclass with a
Vector3 translation and Rotator3 rotation of real components, an optional
Vector3 scale of real components, and optional string name and parent. -/
def isTransformOk : PyVal → Bool
  | .transform tr rot sc nm par =>
      (match tr with
       | .vector3 x y z => (pyRealVal x).isSome && (pyRealVal y).isSome && (pyRealVal z).isSome
       | _ => false) &&
      (match rot with
       | .rotator3 p t r => (pyRealVal p).isSome && (pyRealVal t).isSome && (pyRealVal r).isSome
       | _ => false) &&
      (match sc with
       | .none => true
       | .vector3 x y z => (pyRealVal x).isSome && (pyRealVal y).isSome && (pyRealVal z).isSome
       | _ => false) &&
      (match nm with | .none => true | .str _ => true | _ => false) &&
      (match par with | .none => true | .str _ => true | _ => false)
  | _ => false

/-- Transforms.validate (model.py lines 263-302): a non-empty tuple of valid
transform objects. -/
def Transforms.validate : PyVal → Bool
  | .list xs => !xs.isEmpty && xs.all isTransformOk
  | _ => false

/-- Dataclass instances: the only values `dataclasses.asdict` accepts as its
top-level argument. -/
def isDataclassVal : PyVal → Bool
  | .vector3 .. => true
  | .rotator3 .. => true
  | .transform .. => true
  | .timecode .. => true
  | .timestamp .. => true
  | .synchronization .. => true
  | .syncOffsets .. => true
  | .encoders .. => true
  | .orientations .. => true
  | .exposureFalloff .. => true
  | _ => false

/-- Transforms.to_json (model.py lines 304-311): `asdict` of every transform of
the sequence, with a `dict_factory` that drops `None`-valued keys. -/
def Transforms.to_json : PyVal → Option PyVal
  | .list xs =>
      if xs.all isDataclassVal then some (.list (xs.map (asdictF true)))
      else Option.none
  | _ => Option.none

/-- Keyword construction `Transform(**v)`.  Modelled from the spec:
`translation` and `rotation` are required, `scale`, `name` and `parent` are
optional with default `None` (spec section 4.1 transforms row). -/
def mkTransform (kvs : List (String × PyVal)) : Option PyVal :=
  if keysIn kvs ["translation", "rotation", "scale", "name", "parent"] then
    match getKey kvs "translation", getKey kvs "rotation" with
    | some tr, some rot =>
        some (.transform tr rot (getKeyD kvs "scale") (getKeyD kvs "name") (getKeyD kvs "parent"))
    | _, _ => Option.none
  else Option.none

/-- Transforms.from_json (model.py lines 313-318): a tuple of
`Transform(**v)` over the decoded array; each element must be a dict of
accepted keywords. -/
def Transforms.from_json : PyVal → Option PyVal
  | .list xs =>
      ((xs.mapM (fun v =>
        match v with
        | PyVal.dict kvs => mkTransform kvs
        | _ => Option.none) : Option (List PyVal))).map PyVal.list
  | _ => Option.none

/-- The one regular-expression pattern occurring in the schema fragments of
model.py: the `ptp_master` pattern of `TimingSynchronization.make_json_schema`
(model.py line 449), six pairs of uppercase hex digits joined by colons,
anchored on both sides. -/
inductive SchemaPattern where
  | macUpperColon
deriving DecidableEq, Repr

/-- Uppercase hexadecimal digit, the character class `[A-F0-9]` of the schema
pattern. -/
def isHexU (c : Char) : Bool :=
  c.isDigit || ('A' ≤ c && c ≤ 'F')

/-- Anchored body of the schema's `ptp_master` pattern. -/
def macUpperBody : List Char → Bool
  | [a, b, s1, c, d, s2, e, f, s3, g, h, s4, i, j, s5, k, l] =>
      s1 == ':' && s2 == ':' && s3 == ':' && s4 == ':' && s5 == ':' &&
      isHexU a && isHexU b && isHexU c && isHexU d && isHexU e && isHexU f &&
      isHexU g && isHexU h && isHexU i && isHexU j && isHexU k && isHexU l
  | _ => false

/-- Semantics of a schema pattern under Python regular-expression matching
(`$` also matches just before one final newline). -/
def SchemaPattern.matches : SchemaPattern → String → Bool
  | .macUpperColon, s =>
      macUpperBody s.data ||
        (match s.data.getLast? with
         | some c => c == '\n' && macUpperBody s.data.dropLast
         | _ => false)

/-- Abstract syntax of the JSON-schema fragments returned by the
`make_json_schema` methods needed by the claims, transcribed keyword for
keyword from the dict literals in model.py.  Every `object` fragment in those
literals sets `additionalProperties: false`, which `objS` hard-codes. -/
inductive Schema where
  | intS (minimum maximum : Option Int)
  | numS (minimum maximum : Option ℚ)
  | boolS
  | strS (enum : Option (List String)) (pattern : Option SchemaPattern)
  | objS (properties : List (String × Schema)) (required : List String)
deriving Repr

mutual

/-- JSON-schema validation of an encoded value against a fragment, for the
keywords used by model.py: `type` (with the Python jsonschema semantics that a
boolean is neither an "integer" nor a "number"), `minimum`, `maximum`, `enum`,
`pattern`, `properties` with `additionalProperties: false`, and `required`. -/
def schemaAccepts : Schema → PyVal → Bool
  | .intS mn mx, .int n =>
      (match mn with | some lo => decide (lo ≤ n) | _ => true) &&
      (match mx with | some hi => decide (n ≤ hi) | _ => true)
  | .intS _ _, _ => false
  | .numS mn mx, v =>
      (match v with
       | .int n =>
           (match mn with | some lo => decide (lo ≤ (n : ℚ)) | _ => true) &&
           (match mx with | some hi => decide ((n : ℚ) ≤ hi) | _ => true)
       | .float q =>
           (match mn with | some lo => decide (lo ≤ q) | _ => true) &&
           (match mx with | some hi => decide (q ≤ hi) | _ => true)
       | _ => false)
  | .boolS, v => (match v with | .bool _ => true | _ => false)
  | .strS en pat, v =>
      (match v with
       | .str s =>
           (match en with | some ss => ss.contains s | _ => true) &&
           (match pat with | some p => p.matches s | _ => true)
       | _ => false)
  | .objS props req, v =>
      (match v with
       | .dict kvs =>
           kvs.all (fun kv => props.any (fun pr => pr.1 == kv.1)) &&
           schemaProps props kvs &&
           req.all (fun k => kvs.any (fun kv => kv.1 == k))
       | _ => false)

/-- Each declared property present in the object validates against its
fragment. -/
def schemaProps : List (String × Schema) → List (String × PyVal) → Bool
  | [], _ => true
  | (k, sch) :: rest, kvs =>
      (match getKey kvs k with
       | some v => schemaAccepts sch v
       | _ => true) &&
      schemaProps rest kvs

end

/-- ShutterAngle.make_json_schema (model.py lines 186-192): integer with
minimum 1 and maximum 360000. -/
def ShutterAngle.make_json_schema : Schema :=
  .intS (some 1) (some 360000)

/-- TimingSynchronization.make_json_schema (model.py lines 440-464): the
required frequency/locked/source with the optional PTP properties; the `source`
enum lists the wire value of every `SynchronizationSourceEnum` member and the
`ptp_master` pattern accepts only colon-separated uppercase hex. -/
def TimingSynchronization.make_json_schema : Schema :=
  .objS
    [("frequency", .numS (some 0) Option.none),
     ("locked", .boolS),
     ("source", .strS (some [SyncSource.toStr .ptp]) Option.none),
     ("ptp_master", .strS Option.none (some .macUpperColon)),
     ("ptp_offset", .numS Option.none Option.none),
     ("ptp_domain", .intS (some 0) Option.none),
     ("offsets", .objS
        [("translation", .numS Option.none Option.none),
         ("rotation", .numS Option.none Option.none),
         ("encoders", .numS Option.none Option.none)] []),
     ("enabled", .boolS)]
    ["frequency", "locked", "source"]

/-- Sampling mode of a field descriptor (`Sampling` of camdkit/framework.py;
spec section 3: STATIC or REGULAR). -/
inductive Sampling where
  | STATIC
  | REGULAR
deriving DecidableEq, Repr

/-- The descriptor table `Clip._params` of the Clip record: one entry per class
attribute of `Clip` (model.py lines 795-832) in declaration order, carrying the
field identifier and the descriptor's declared sampling mode.  Modelled from
the spec where the framework is absent: the table is built once at
type-definition time from the declared fields (spec sections 3 and 9). -/
def clipParams : List (String × Sampling) :=
  [("duration", .STATIC),
   ("capture_fps", .STATIC),
   ("active_sensor_physical_dimensions", .STATIC),
   ("lens_make", .STATIC),
   ("lens_model", .STATIC),
   ("lens_serial_number", .STATIC),
   ("lens_firmware", .STATIC),
   ("camera_make", .STATIC),
   ("camera_model", .STATIC),
   ("camera_firmware", .STATIC),
   ("camera_serial_number", .STATIC),
   ("iso", .STATIC),
   ("t_number", .REGULAR),
   ("f_number", .REGULAR),
   ("focal_length", .REGULAR),
   ("focus_position", .REGULAR),
   ("entrance_pupil_position", .REGULAR),
   ("anamorphic_squeeze", .STATIC),
   ("fdl_link", .STATIC),
   ("shutter_angle", .STATIC),
   ("packet_id", .REGULAR),
   ("protocol", .REGULAR),
   ("metadata_status", .REGULAR),
   ("metadata_recording", .REGULAR),
   ("metadata_slate", .REGULAR),
   ("metadata_notes", .REGULAR),
   ("metadata_related_packets", .REGULAR),
   ("timing_mode", .REGULAR),
   ("timing_timestamp", .REGULAR),
   ("timing_sequence_number", .REGULAR),
   ("timing_frame_rate", .REGULAR),
   ("timing_timecode", .REGULAR),
   ("timing_synchronization", .REGULAR),
   ("transforms", .REGULAR),
   ("lens_encoders", .REGULAR),
   ("lens_fov_scale", .REGULAR),
   ("lens_exposure_falloff", .REGULAR)]

/-- The sampling modes of the Clip fields in declaration order. -/
def clipSamplings : List Sampling :=
  clipParams.map (fun p => p.2)

/-- The value slots `self._values` of one Clip instance, positionally aligned
with `clipParams`.  Modelled from the spec where the framework is absent: a
slot is absent/unset by default (Python `None`, the marker the model.py guards
compare against), here `Option.none`. -/
abbrev ClipVals : Type := List (Option PyVal)

/-- A freshly constructed `Clip()`: every slot unset. -/
def emptyClipVals : ClipVals :=
  List.replicate clipParams.length (Option.none : Option PyVal)

/-- Python faults raised by the Clip container helpers. -/
inductive PyErr where
  | valueError
  | typeError
  | indexError
deriving DecidableEq, Repr

/-- Python `x += y` on a value slot (`self._values[prop] += clip._values[prop]`
in `Clip.append`): tuple concatenation when both sides are sequences, numeric
addition on numbers, string concatenation on strings, and a `TypeError`
(`none`) otherwise — in particular when the left slot is absent (`None`). -/
def pySlotAdd : Option PyVal → PyVal → Option PyVal
  | some (PyVal.list xs), PyVal.list ys => some (.list (xs ++ ys))
  | some (PyVal.int m), PyVal.int n => some (.int (m + n))
  | some (PyVal.int m), PyVal.float q => some (.float ((m : ℚ) + q))
  | some (PyVal.float q), PyVal.int n => some (.float (q + (n : ℚ)))
  | some (PyVal.float p), PyVal.float q => some (.float (p + q))
  | some (PyVal.str a), PyVal.str b => some (.str (a ++ b))
  | _, _ => Option.none

/-- The loop of `Clip.append` (model.py lines 839-841) over the descriptor
table: for each field whose slot on `other` is populated and whose descriptor
is REGULAR, add `other`'s value onto this record's slot.  A `TypeError` raised
mid-loop leaves the slots updated so far and stops (the remaining slots keep
their old values), which the returned pair reports. -/
def appendVals : List Sampling → List (Option PyVal) → List (Option PyVal) →
    Option PyErr × List (Option PyVal)
  | s :: ps, a :: as, b :: bs =>
      match b with
      | some bv =>
          if s = Sampling.REGULAR then
            match pySlotAdd a bv with
            | some v =>
                let r := appendVals ps as bs
                (r.1, some v :: r.2)
            | _ => (some .typeError, a :: as)
          else
            let r := appendVals ps as bs
            (r.1, a :: r.2)
      | _ =>
          let r := appendVals ps as bs
          (r.1, a :: r.2)
  | _, as, _ => (Option.none, as)

/-- The argument of `Clip.append`: either a Clip record (its slots) or any
other Python value. -/
inductive AppendArg where
  | clip (vals : List (Option PyVal))
  | notClip (v : PyVal)

/-- Clip.append (model.py lines 835-841): raises `ValueError` before touching
any slot when the argument is not a Clip, otherwise runs the per-field loop
over the descriptor table.  The second component is this record's slots after
the call. -/
def Clip.append (self : List (Option PyVal)) : AppendArg → Option PyErr × List (Option PyVal)
  | .notClip _ => (some .valueError, self)
  | .clip other => appendVals clipSamplings self other

/-- Python tuple indexing `desc[i]`: supports negative indices from the end and
raises `IndexError` (`none`) out of range. -/
def pyTupleGet (xs : List PyVal) (i : Int) : Option PyVal :=
  if 0 ≤ i then xs.get? i.toNat
  else if 0 ≤ i + (xs.length : Int) then xs.get? (i + (xs.length : Int)).toNat
  else Option.none

/-- The loop of `Clip.__getitem__` (model.py lines 843-851): starting from a
fresh `Clip()` (every slot unset), copy the i-th element of every tuple-valued
slot of the source onto the new record; slots that are not tuples — unset
slots and populated STATIC values — are skipped, so the fresh record keeps
`None` there.  Indexing a tuple that lacks position `i` raises `IndexError`,
discarding the partially built record.  The source is only read. -/
def extractVals : List (Option PyVal) → Int → Except PyErr (List (Option PyVal))
  | [], _ => .ok []
  | a :: as, i =>
      match a with
      | some (PyVal.list xs) =>
          match pyTupleGet xs i with
          | some v => (extractVals as i).map (fun r => some v :: r)
          | _ => .error .indexError
      | _ => (extractVals as i).map (fun r => (Option.none : Option PyVal) :: r)

/-- Clip.make_static_json_schema's effect on the class-level descriptor table
(model.py lines 853-862): iterate over a copy of `cls._params`, delete every
STATIC entry from the real table, and overwrite the sampling of every
remaining descriptor with STATIC; the surviving table drives the generated
schema.  The deletions and sampling overwrites are plain mutations of the
class attribute and are never undone. -/
def makeStaticParams (ps : List (String × Sampling)) : List (String × Sampling) :=
  (ps.filter (fun p => p.2 = Sampling.REGULAR)).map (fun p => (p.1, Sampling.STATIC))

/-- C9: `Clip.append` raises `ValueError` when its argument is not a Clip
record, and the record's slots are left completely unchanged — the fault is
raised before the per-field loop can mutate anything. -/
theorem c9_append_type_fault (self : List (Option PyVal)) (v : PyVal) :
    Clip.append self (.notClip v) = (some PyErr.valueError, self) := rfl

/-- The rational 12.5, built structurally so that it evaluates in the
kernel. -/
def twelvePointFive : ℚ := ⟨25, 2, by decide, by decide⟩

/-- C10: `ShutterAngle.from_json` returns `int(x)` for every real-number JSON
input and never raises: integers decode unchanged and every float is truncated
toward zero, so a non-integer wire value such as 12.5 is silently truncated to
the integer 12 rather than rejected, even though 12.5 itself fails
`ShutterAngle.validate`. -/
theorem c10_shutter_from_json :
    (∀ n : Int, ShutterAngle.from_json (.int n) = some (.int n)) ∧
    (∀ q : ℚ, ShutterAngle.from_json (.float q) =
      some (.int (Int.tdiv q.num (q.den : Int)))) ∧
    twelvePointFive = 25 / 2 ∧
    ShutterAngle.from_json (.float twelvePointFive) = some (.int 12) ∧
    ShutterAngle.validate (.float twelvePointFive) = false :=
  ⟨fun _ => rfl, fun _ => rfl,
   by norm_num [twelvePointFive, Rat.mk'_eq_divInt, Rat.divInt_eq_div], rfl, rfl⟩

/-- C2 (amended): validate, toJSON, fromJSON, append, extract and the regular
schema generator are pure functions that read the descriptor table without
mutating it (in this embedding none of `Clip.append`, `extractVals`, the
descriptor operations or the schema fragments touches `clipParams`), but
`Clip.make_static_json_schema` does not leave `Clip._params` unchanged: it
permanently deletes every STATIC entry and rewrites the sampling of every
surviving descriptor to STATIC. -/
theorem c2_descriptor_table_amended :
    makeStaticParams clipParams =
      [("t_number", .STATIC),
       ("f_number", .STATIC),
       ("focal_length", .STATIC),
       ("focus_position", .STATIC),
       ("entrance_pupil_position", .STATIC),
       ("packet_id", .STATIC),
       ("protocol", .STATIC),
       ("metadata_status", .STATIC),
       ("metadata_recording", .STATIC),
       ("metadata_slate", .STATIC),
       ("metadata_notes", .STATIC),
       ("metadata_related_packets", .STATIC),
       ("timing_mode", .STATIC),
       ("timing_timestamp", .STATIC),
       ("timing_sequence_number", .STATIC),
       ("timing_frame_rate", .STATIC),
       ("timing_timecode", .STATIC),
       ("timing_synchronization", .STATIC),
       ("transforms", .STATIC),
       ("lens_encoders", .STATIC),
       ("lens_fov_scale", .STATIC),
       ("lens_exposure_falloff", .STATIC)] ∧
    makeStaticParams clipParams ≠ clipParams :=
  ⟨rfl, by decide⟩

/-- C2 (counterexample): contrary to the claim that no public operation
mutates the descriptor mapping, `Clip.make_static_json_schema` changes
`Clip._params` — after the call the table is not the Clip descriptor table
any more (every STATIC field, `duration` first, is gone). -/
theorem c2_descriptor_table_counterexample :
    makeStaticParams clipParams ≠ clipParams := by
  decide

/-- The head condition under which one step of the `Clip.append` loop cannot
fault: whenever the descriptor is REGULAR and `other`'s slot is populated,
both records hold tuples there. -/
def appendHeadOk (s : Sampling) (a b : Option PyVal) : Bool :=
  match s, a, b with
  | Sampling.REGULAR, some (PyVal.list _), some (PyVal.list _) => true
  | Sampling.REGULAR, _, some _ => false
  | _, _, _ => true

/-- All slots satisfy `appendHeadOk` and the three lists are aligned with the
descriptor table. -/
def appendPrecond : List Sampling → List (Option PyVal) → List (Option PyVal) → Bool
  | [], [], [] => true
  | s :: ps, a :: as, b :: bs => appendHeadOk s a b && appendPrecond ps as bs
  | _, _, _ => false

/-- The slot produced by one non-faulting step of the `Clip.append` loop:
concatenation in order for a populated REGULAR pair, the old slot otherwise. -/
def appendMergeHead (s : Sampling) (a b : Option PyVal) : Option PyVal :=
  match s, a, b with
  | Sampling.REGULAR, some (PyVal.list xs), some (PyVal.list ys) => some (.list (xs ++ ys))
  | _, _, _ => a

/-- Slotwise merge of two records under the `Clip.append` loop. -/
def appendMerge : List Sampling → List (Option PyVal) → List (Option PyVal) → List (Option PyVal)
  | s :: ps, a :: as, b :: bs => appendMergeHead s a b :: appendMerge ps as bs
  | _, as, _ => as

set_option linter.unnecessarySeqFocus false in
/-- C3 (amended): when every REGULAR field populated on `other` is also
populated (as a tuple) on this record, `Clip.append` succeeds and
concatenates, for every such field, `other`'s sequence onto this record's
sequence in order, while STATIC fields and fields not populated on `other`
keep their old slots (see `appendMergeHead`); and slots whose descriptor is
STATIC are always returned untouched.  The amendment forced by the
counterexample: if this record's slot is absent while `other`'s is populated,
`Clip.append` does not create the sequence — it raises `TypeError`
(`self._values[prop] += ...` on `None`). -/
theorem c3_append_amended :
    (∀ (as bs : List (Option PyVal)),
      appendPrecond clipSamplings as bs = true →
      Clip.append as (.clip bs) = (Option.none, appendMerge clipSamplings as bs)) ∧
    (∀ (ps : List Sampling) (as bs : List (Option PyVal)) (p : Nat),
      ps[p]? = some Sampling.STATIC →
      (appendMerge ps as bs)[p]? = as[p]?) := by
  have key : ∀ (ps : List Sampling) (as bs : List (Option PyVal)),
      appendPrecond ps as bs = true →
      appendVals ps as bs = (Option.none, appendMerge ps as bs) := by
    intro ps
    induction ps with
    | nil =>
        intro as bs h
        cases as with
        | nil =>
            cases bs with
            | nil => rfl
            | cons b bs => simp [appendPrecond] at h
        | cons a as => simp [appendPrecond] at h
    | cons s ps ih =>
        intro as bs h
        cases as with
        | nil => simp [appendPrecond] at h
        | cons a as =>
            cases bs with
            | nil => simp [appendPrecond] at h
            | cons b bs =>
                simp only [appendPrecond, Bool.and_eq_true] at h
                obtain ⟨h1, h2⟩ := h
                cases b with
                | none =>
                    simp [appendVals, appendMerge, appendMergeHead, ih _ _ h2]
                | some bv =>
                    cases s with
                    | STATIC =>
                        simp [appendVals, appendMerge, appendMergeHead, ih _ _ h2]
                    | REGULAR =>
                        cases a with
                        | none => simp [appendHeadOk] at h1
                        | some av =>
                            cases av <;> cases bv <;> simp [appendHeadOk] at h1 <;>
                              simp [appendVals, appendMerge, appendMergeHead, pySlotAdd,
                                ih _ _ h2]
  constructor
  · intro as bs h
    exact key clipSamplings as bs h
  · intro ps
    induction ps with
    | nil => intro as bs p h; simp at h
    | cons s ps ih =>
        intro as bs p h
        cases as with
        | nil =>
            cases bs with
            | nil => rfl
            | cons b bs => simp [appendMerge]
        | cons a as =>
            cases bs with
            | nil => simp [appendMerge]
            | cons b bs =>
                cases p with
                | zero =>
                    simp at h
                    subst h
                    simp [appendMerge, appendMergeHead]
                | succ p =>
                    simp at h
                    simpa [appendMerge] using ih as bs p h

/-- Record A of the spec's append example: REGULAR field `t_number` (slot 12)
holds (1, 2) and the STATIC `duration` slot (slot 0) is populated. -/
def c3A : List (Option PyVal) :=
  (emptyClipVals.set 12 (some (.list [.int 1, .int 2]))).set 0 (some (.int 7))

/-- Record B of the spec's append example: `t_number` holds (3). -/
def c3B : List (Option PyVal) :=
  emptyClipVals.set 12 (some (.list [.int 3]))

/-- Witness for the amended C3 at the spec's own example: A with f = [1,2] and
B with f = [3] gives A.f == [1,2,3] after `A.append(B)`, and A's STATIC
`duration` slot is unchanged. -/
theorem c3_append_witness :
    appendPrecond clipSamplings c3A c3B = true ∧
    Clip.append c3A (.clip c3B) = (Option.none, appendMerge clipSamplings c3A c3B) ∧
    (appendMerge clipSamplings c3A c3B)[12]? = some (some (.list [.int 1, .int 2, .int 3])) ∧
    clipSamplings[0]? = some Sampling.STATIC ∧
    (appendMerge clipSamplings c3A c3B)[0]? = c3A[0]? :=
  ⟨by decide, c3_append_amended.1 c3A c3B (by decide), rfl,
   by decide, c3_append_amended.2 clipSamplings c3A c3B 0 (by decide)⟩

/-- Counterexample for C3 as stated: with A's `t_number` slot absent and B's
populated with (3), `A.append(B)` does not create the sequence on A — the
`+=` on the absent slot raises `TypeError` and A is left unchanged, contrary
to the claim that A.f would become [3]. -/
theorem c3_append_counterexample :
    c3B[12]? = some (some (.list [.int 3])) ∧
    emptyClipVals[12]? = some (Option.none : Option PyVal) ∧
    Clip.append emptyClipVals (.clip c3B) = (some PyErr.typeError, emptyClipVals) :=
  ⟨rfl, rfl, rfl⟩

/-- Every tuple-valued slot has an element at index `i` (the condition under
which the `Clip.__getitem__` loop cannot raise `IndexError`). -/
def extractPrecond : List (Option PyVal) → Int → Bool
  | [], _ => true
  | a :: as, i =>
      (match a with
       | some (PyVal.list xs) => (pyTupleGet xs i).isSome
       | _ => true) && extractPrecond as i

/-- The slot the extracted record holds for one source slot: the i-th element
of a tuple-valued slot, absent otherwise. -/
def extractProj (i : Int) : Option PyVal → Option PyVal
  | some (PyVal.list xs) => pyTupleGet xs i
  | _ => Option.none

/-- A slot that is not a tuple is skipped by the `Clip.__getitem__` loop. -/
theorem extractVals_cons_nonlist (a0 : Option PyVal)
    (h : ∀ xs, a0 ≠ some (PyVal.list xs)) (as : List (Option PyVal)) (i : Int) :
    extractVals (a0 :: as) i = (extractVals as i).map (fun r => Option.none :: r) := by
  cases a0 with
  | none => rfl
  | some v => cases v <;> first | rfl | exact absurd rfl (h _)

/-- A slot that is not a tuple contributes an absent slot to the extracted
record. -/
theorem extractProj_nonlist (i : Int) (a0 : Option PyVal)
    (h : ∀ xs, a0 ≠ some (PyVal.list xs)) :
    extractProj i a0 = Option.none := by
  cases a0 with
  | none => rfl
  | some v => cases v <;> first | rfl | exact absurd rfl (h _)

/-- C4 (amended): `extract(i)` returns a new record in which every
REGULAR (tuple-valued) slot with an element at position `i` holds exactly that
single element and every other slot contributes nothing — provided every
populated tuple slot has an element at `i`.  The amendment forced by the
counterexample: a populated REGULAR field lacking an element at position `i`
does not merely contribute nothing, it makes `extract` raise `IndexError`. -/
theorem c4_extract_amended (as : List (Option PyVal)) (i : Int)
    (h : extractPrecond as i = true) :
    extractVals as i = .ok (as.map (extractProj i)) := by
  induction as with
  | nil => rfl
  | cons a as ih =>
      simp only [extractPrecond, Bool.and_eq_true] at h
      obtain ⟨h1, h2⟩ := h
      by_cases hl : ∃ xs, a = some (PyVal.list xs)
      · obtain ⟨xs, rfl⟩ := hl
        obtain ⟨w, hw⟩ := Option.isSome_iff_exists.mp h1
        simp [extractVals, extractProj, hw, ih h2, Except.map]
      · push_neg at hl
        rw [extractVals_cons_nonlist a hl as i, ih h2]
        simp [Except.map, extractProj_nonlist i a hl]

/-- The record of the spec's extract example: REGULAR field
`timing_sequence_number` (slot 29) holds (10, 11, 12). -/
def c4W : List (Option PyVal) :=
  emptyClipVals.set 29 (some (.list [.int 10, .int 11, .int 12]))

/-- Witness for the amended C4 at the spec's own example: with
`timing_sequence_number` = [10,11,12], `extract(1)` yields a record whose
corresponding slot holds the single element 11. -/
theorem c4_extract_witness :
    extractPrecond c4W 1 = true ∧
    extractVals c4W 1 = .ok (c4W.map (extractProj 1)) ∧
    (c4W.map (extractProj 1))[29]? = some (some (.int 11)) :=
  ⟨by decide, c4_extract_amended c4W 1 (by decide), rfl⟩

/-- A record whose only populated REGULAR field holds a 2-element tuple. -/
def c4X : List (Option PyVal) :=
  emptyClipVals.set 29 (some (.list [.int 10, .int 11]))

/-- Counterexample for C4 as stated: a populated REGULAR field lacking an
element at position 2 does not "contribute nothing (no fault)" —
`extract(2)` raises `IndexError`. -/
theorem c4_extract_counterexample :
    c4X[29]? = some (some (.list [.int 10, .int 11])) ∧
    extractVals c4X 2 = .error PyErr.indexError :=
  ⟨rfl, rfl⟩

/-- C5 (amended): the record extract returns keeps every non-tuple slot of the
source — in particular every populated STATIC value — unpopulated: STATIC
values are not carried over onto the new record.  The source record itself is
left unchanged (`extractVals` only reads it; the Python loop never assigns to
`self`). -/
theorem c5_extract_static_amended :
    ∀ (as : List (Option PyVal)) (i : Int) (r : List (Option PyVal)),
      extractVals as i = .ok r →
      ∀ (p : Nat) (a : Option PyVal), as[p]? = some a →
      (∀ xs, a ≠ some (PyVal.list xs)) →
      r[p]? = some (Option.none : Option PyVal) := by
  intro as
  induction as with
  | nil =>
      intro i r hr p a hp hnl
      simp at hp
  | cons a0 as ih =>
      intro i r hr p a hp hnl
      by_cases hl : ∃ xs, a0 = some (PyVal.list xs)
      · obtain ⟨xs, rfl⟩ := hl
        cases hw : pyTupleGet xs i with
        | none => simp [extractVals, hw] at hr
        | some w =>
            cases hrec : extractVals as i with
            | error e => simp [extractVals, hw, hrec, Except.map] at hr
            | ok r' =>
                simp only [extractVals, hw, hrec, Except.map] at hr
                obtain rfl : some w :: r' = r := by
                  cases hr
                  rfl
                cases p with
                | zero =>
                    simp only [List.getElem?_cons_zero, Option.some.injEq] at hp
                    exact absurd hp.symm (hnl xs)
                | succ p =>
                    simp only [List.getElem?_cons_succ] at hp ⊢
                    exact ih i r' hrec p a hp hnl
      · push_neg at hl
        rw [extractVals_cons_nonlist a0 hl as i] at hr
        cases hrec : extractVals as i with
        | error e => rw [hrec] at hr; simp [Except.map] at hr
        | ok r' =>
            rw [hrec] at hr
            simp only [Except.map] at hr
            obtain rfl : Option.none :: r' = r := by
              cases hr
              rfl
            cases p with
            | zero => simp
            | succ p =>
                simp only [List.getElem?_cons_succ] at hp ⊢
                exact ih i r' hrec p a hp hnl

/-- A record whose STATIC `duration` slot (slot 0) is populated with 5. -/
def c5W : List (Option PyVal) :=
  emptyClipVals.set 0 (some (.int 5))

/-- Witness for the amended C5: extracting from a record with a populated
STATIC `duration` yields a record whose `duration` slot is unpopulated. -/
theorem c5_extract_static_witness :
    extractVals c5W 0 = Except.ok emptyClipVals ∧
    c5W[0]? = some (some (PyVal.int 5)) ∧
    emptyClipVals[0]? = some (Option.none : Option PyVal) :=
  ⟨rfl, rfl,
   c5_extract_static_amended c5W 0 emptyClipVals rfl 0 (some (.int 5)) rfl
     (fun xs h => by simp at h)⟩

/-- Counterexample for C5 as stated: the record returned by `extract` does not
have the same STATIC field values as the source — the source's `duration`
holds 5 while the extracted record's `duration` slot is absent. -/
theorem c5_extract_static_counterexample :
    c5W[0]? = some (some (PyVal.int 5)) ∧
    extractVals c5W 0 = Except.ok emptyClipVals ∧
    emptyClipVals[0]? = some (Option.none : Option PyVal) ∧
    (some (Option.none : Option PyVal) : Option (Option PyVal)) ≠ some (some (PyVal.int 5)) :=
  ⟨rfl, rfl, by simp [emptyClipVals, clipParams], by simp⟩

/-- Inversion of the half-open integer range test. -/
theorem intInHo_eq_true_iff (v : PyVal) (lo hi : Int) :
    intInHo v lo hi = true ↔ ∃ n, pyIntLike v = some n ∧ lo ≤ n ∧ n < hi := by
  unfold intInHo
  cases h : pyIntLike v <;> simp [h]

/-- The specification's description of a valid timecode: a Timecode value
whose format is a member of the fixed format enumeration, hours an integer in
[0,24), minutes and seconds integers in [0,60), and frames an integer in
[0, frame-count-for-format).  (Python "integer" includes booleans, which are
ints with values 0 and 1 — see `pyIntLike`.) -/
def timecodeClaimOk (v : PyVal) : Prop :=
  ∃ (hh mm ss ff : PyVal) (f : TcFormat),
    v = .timecode hh mm ss ff (.tcFormat f) ∧
    (∃ h : Int, pyIntLike hh = some h ∧ 0 ≤ h ∧ h < 24) ∧
    (∃ m : Int, pyIntLike mm = some m ∧ 0 ≤ m ∧ m < 60) ∧
    (∃ s : Int, pyIntLike ss = some s ∧ 0 ≤ s ∧ s < 60) ∧
    (∃ fr : Int, pyIntLike ff = some fr ∧ 0 ≤ fr ∧ fr < f.toInt)

/-- C7: `TimingTimecode.validate` accepts exactly the Timecode values the
specification describes; consequently 23:59:59:29 at format "30D" validates
and the same value with hours 24 fails. -/
theorem c7_timecode_validate :
    (∀ v, TimingTimecode.validate v = true ↔ timecodeClaimOk v) ∧
    TimingTimecode.validate
      (.timecode (.int 23) (.int 59) (.int 59) (.int 29) (.tcFormat .f30D)) = true ∧
    TimingTimecode.validate
      (.timecode (.int 24) (.int 59) (.int 59) (.int 29) (.tcFormat .f30D)) = false := by
  refine ⟨?_, by decide, by decide⟩
  intro v
  constructor
  · intro h
    cases v
    case timecode hh mm ss ff fmt =>
      cases fmt
      case tcFormat f =>
        simp only [TimingTimecode.validate, Bool.and_eq_true, intInHo_eq_true_iff] at h
        obtain ⟨⟨⟨hh1, hm1⟩, hs1⟩, hf1⟩ := h
        exact ⟨hh, mm, ss, ff, f, rfl, hh1, hm1, hs1, hf1⟩
      all_goals simp [TimingTimecode.validate] at h
    all_goals simp [TimingTimecode.validate] at h
  · rintro ⟨hh, mm, ss, ff, f, rfl, h1, h2, h3, h4⟩
    simp only [TimingTimecode.validate, Bool.and_eq_true, intInHo_eq_true_iff]
    exact ⟨⟨⟨h1, h2⟩, h3⟩, h4⟩

/-- Inversion of `isNonePy`. -/
theorem isNonePy_eq_true_iff (v : PyVal) : isNonePy v = true ↔ v = .none := by
  cases v <;> simp [isNonePy]

/-- Inversion of the per-encoder test. -/
theorem encOk_eq_true_iff (v : PyVal) :
    encOk v = true ↔ (v = .none ∨ ∃ q, v = .float q ∧ 0 ≤ q ∧ q ≤ 1) := by
  cases v <;> simp [encOk]

/-- The claim's reading of one encoder attribute: absent, or a real number
(any of Python int, bool, float) within [0.0, 1.0]. -/
def encRealOk (v : PyVal) : Prop :=
  v = .none ∨ ∃ q, pyRealVal v = some q ∧ 0 ≤ q ∧ q ≤ 1

/-- The claim C8 as stated: an Encoders value, at least one of focus/iris/zoom
present, and every present attribute a real number in [0.0, 1.0]. -/
def encodersClaimOk (v : PyVal) : Prop :=
  ∃ f i z, v = .encoders f i z ∧
    ¬(f = .none ∧ i = .none ∧ z = .none) ∧
    encRealOk f ∧ encRealOk i ∧ encRealOk z

/-- The amended claim: every present attribute must specifically be a Python
float in [0.0, 1.0] (`isinstance(test, float)`), not merely a real number. -/
def encodersFloatOk (v : PyVal) : Prop :=
  ∃ f i z, v = .encoders f i z ∧
    ¬(f = .none ∧ i = .none ∧ z = .none) ∧
    (f = .none ∨ ∃ q, f = .float q ∧ 0 ≤ q ∧ q ≤ 1) ∧
    (i = .none ∨ ∃ q, i = .float q ∧ 0 ≤ q ∧ q ≤ 1) ∧
    (z = .none ∨ ∃ q, z = .float q ∧ 0 ≤ q ∧ q ≤ 1)

set_option linter.unnecessarySeqFocus false in
/-- C8 (amended): `LensEncoders.validate` returns true exactly on Encoders
values with at least one of focus/iris/zoom present and every present one a
Python float in the closed interval [0.0, 1.0]. -/
theorem c8_encoders_amended (v : PyVal) :
    LensEncoders.validate v = true ↔ encodersFloatOk v := by
  constructor
  · intro h
    cases v
    case encoders f i z =>
      simp only [LensEncoders.validate, Bool.and_eq_true, Bool.not_eq_true',
        Bool.and_eq_false_iff, encOk_eq_true_iff] at h
      obtain ⟨⟨⟨hp, hf⟩, hi⟩, hz⟩ := h
      refine ⟨f, i, z, rfl, ?_, hf, hi, hz⟩
      rintro ⟨rfl, rfl, rfl⟩
      rcases hp with h | h | h <;> simp [isNonePy] at h
    all_goals simp [LensEncoders.validate] at h
  · rintro ⟨f, i, z, rfl, hp, hf, hi, hz⟩
    simp only [LensEncoders.validate, Bool.and_eq_true, Bool.not_eq_true',
      Bool.and_eq_false_iff, encOk_eq_true_iff]
    refine ⟨⟨⟨?_, hf⟩, hi⟩, hz⟩
    have hno : ¬(isNonePy f = true ∧ isNonePy i = true ∧ isNonePy z = true) := by
      rintro ⟨h1, h2, h3⟩
      exact hp ⟨(isNonePy_eq_true_iff f).mp h1, (isNonePy_eq_true_iff i).mp h2,
        (isNonePy_eq_true_iff z).mp h3⟩
    revert hno
    cases isNonePy f <;> cases isNonePy i <;> cases isNonePy z <;> simp

/-- Counterexample for C8 as stated: `Encoders(focus=1)` (the integer 1, a
real number inside [0.0, 1.0], with iris and zoom absent) satisfies the
claim's condition but `LensEncoders.validate` rejects it, because the code
demands `isinstance(test, float)`. -/
theorem c8_encoders_counterexample :
    LensEncoders.validate (.encoders (.int 1) .none .none) = false ∧
    encodersClaimOk (.encoders (.int 1) .none .none) := by
  refine ⟨rfl, ⟨.int 1, .none, .none, rfl, ?_, ?_, ?_, ?_⟩⟩
  · rintro ⟨h, -, -⟩
    simp at h
  · right
    exact ⟨1, rfl, by norm_num, by norm_num⟩
  · left; rfl
  · left; rfl

/-- `fromWire(toWire(v))` compared with `v` under Python structural equality
(`pyEq`); false when either codec direction raises. -/
def roundTrip (tj fj : PyVal → Option PyVal) (v : PyVal) : Bool :=
  match (tj v).bind fj with
  | some w => pyEq w v
  | _ => false

/-- A value accepted by `isinstance(v, int)` is an int or a bool literal. -/
theorem pyIntLike_shape (x : PyVal) (n : Int) (h : pyIntLike x = some n) :
    (∃ m, x = PyVal.int m) ∨ (∃ b, x = PyVal.bool b) := by
  cases x <;> simp_all [pyIntLike]

/-- A value accepted by `isinstance(v, numbers.Real)` is an int, a bool or a
float literal. -/
theorem pyRealVal_shape (x : PyVal) (q : ℚ) (h : pyRealVal x = some q) :
    (∃ m, x = PyVal.int m) ∨ (∃ b, x = PyVal.bool b) ∨ (∃ p, x = PyVal.float p) := by
  cases x <;> simp_all [pyRealVal]

/-- `TimecodeFormat.from_string` inverts `str` on every format member. -/
theorem tcFormat_fromString_toStr (f : TcFormat) : TcFormat.fromString f.toStr = some f := by
  cases f <;> rfl

/-- Round trip of the ShutterAngle codec on validated values. -/
theorem rt_shutter (v : PyVal) (h : ShutterAngle.validate v = true) :
    roundTrip ShutterAngle.to_json ShutterAngle.from_json v = true := by
  cases v <;> simp [ShutterAngle.validate, pyIntLike] at h
  case bool b =>
      cases b
      · simp at h
      · rfl
  case int n =>
      exact beq_self_eq_true n

/-- Unfolding lemma for `pyEq` on two int literals. -/
theorem pyEq_int (m n : Int) : pyEq (.int m) (.int n) = (m == n) := rfl

/-- Unfolding lemma for `pyEq` on two bool literals. -/
theorem pyEq_bool (a b : Bool) : pyEq (.bool a) (.bool b) = (a == b) := rfl

/-- Unfolding lemma for `pyEq` on two float literals. -/
theorem pyEq_float (p q : ℚ) : pyEq (.float p) (.float q) = (p == q) := rfl

/-- Unfolding lemma for `pyEq` on two strings. -/
theorem pyEq_str (a b : String) : pyEq (.str a) (.str b) = (a == b) := rfl

/-- Unfolding lemma for `pyEq` on `None`. -/
theorem pyEq_none : pyEq .none .none = true := rfl

/-- Unfolding lemma for `pyEq` on two format members. -/
theorem pyEq_tcFormat (f g : TcFormat) : pyEq (.tcFormat f) (.tcFormat g) = (f == g) := rfl

/-- A wire string equals a synchronization-source member exactly when it is
the member's wire value (`str`-mixin enumeration equality). -/
theorem pyEq_str_syncSource (a : String) (s : SyncSource) :
    pyEq (.str a) (.syncSource s) = (a == s.toStr) := rfl

/-- Fieldwise `pyEq` on two Timecode values. -/
theorem pyEq_timecode (a b c d e a' b' c' d' e' : PyVal) :
    pyEq (.timecode a b c d e) (.timecode a' b' c' d' e') =
      (pyEq a a' && pyEq b b' && pyEq c c' && pyEq d d' && pyEq e e') := rfl

/-- Fieldwise `pyEq` on two Timestamp values. -/
theorem pyEq_timestamp (a b c a' b' c' : PyVal) :
    pyEq (.timestamp a b c) (.timestamp a' b' c') =
      (pyEq a a' && pyEq b b' && pyEq c c') := rfl

/-- Fieldwise `pyEq` on two Synchronization values. -/
theorem pyEq_synchronization (a b c d e f g h a' b' c' d' e' f' g' h' : PyVal) :
    pyEq (.synchronization a b c d e f g h) (.synchronization a' b' c' d' e' f' g' h') =
      (pyEq a a' && pyEq b b' && pyEq c c' && pyEq d d' &&
       pyEq e e' && pyEq f f' && pyEq g g' && pyEq h h') := rfl

/-- Fieldwise `pyEq` on two Encoders values. -/
theorem pyEq_encoders (a b c a' b' c' : PyVal) :
    pyEq (.encoders a b c) (.encoders a' b' c') =
      (pyEq a a' && pyEq b b' && pyEq c c') := rfl

/-- Fieldwise `pyEq` on two Orientations values. -/
theorem pyEq_orientations (a b a' b' : PyVal) :
    pyEq (.orientations a b) (.orientations a' b') = (pyEq a a' && pyEq b b') := rfl

/-- Fieldwise `pyEq` on two ExposureFalloff values. -/
theorem pyEq_exposureFalloff (a b c a' b' c' : PyVal) :
    pyEq (.exposureFalloff a b c) (.exposureFalloff a' b' c') =
      (pyEq a a' && pyEq b b' && pyEq c c') := rfl

/-- `asdict` leaves a format member unchanged. -/
theorem asdict_tcFormat (b : Bool) (f : TcFormat) :
    asdictF b (.tcFormat f) = .tcFormat f := rfl

/-- `asdict` leaves a source member unchanged. -/
theorem asdict_syncSource (b : Bool) (s : SyncSource) :
    asdictF b (.syncSource s) = .syncSource s := rfl

/-- `asdict` leaves a Python integer (int or bool) unchanged. -/
theorem asdict_intLike (x : PyVal) (n : Int) (h : pyIntLike x = some n) (b : Bool) :
    asdictF b x = x := by
  rcases pyIntLike_shape x n h with ⟨m, rfl⟩ | ⟨c, rfl⟩ <;> rfl

/-- A Python integer equals itself under `pyEq`. -/
theorem pyEq_self_intLike (x : PyVal) (n : Int) (h : pyIntLike x = some n) :
    pyEq x x = true := by
  rcases pyIntLike_shape x n h with ⟨m, rfl⟩ | ⟨c, rfl⟩ <;> simp [pyEq_int, pyEq_bool]

/-- `asdict` leaves a Python real (int, bool or float) unchanged. -/
theorem asdict_realLike (x : PyVal) (q : ℚ) (h : pyRealVal x = some q) (b : Bool) :
    asdictF b x = x := by
  rcases pyRealVal_shape x q h with ⟨m, rfl⟩ | ⟨c, rfl⟩ | ⟨p, rfl⟩ <;> rfl

/-- A Python real equals itself under `pyEq`. -/
theorem pyEq_self_realLike (x : PyVal) (q : ℚ) (h : pyRealVal x = some q) :
    pyEq x x = true := by
  rcases pyRealVal_shape x q h with ⟨m, rfl⟩ | ⟨c, rfl⟩ | ⟨p, rfl⟩ <;>
    simp [pyEq_int, pyEq_bool, pyEq_float]

/-- Round trip of the TimingTimecode codec on validated values. -/
theorem rt_timecode (v : PyVal) (h : TimingTimecode.validate v = true) :
    roundTrip TimingTimecode.to_json TimingTimecode.from_json v = true := by
  cases v
  case timecode hh mm ss ff fmt =>
    cases fmt
    case tcFormat f =>
      simp only [TimingTimecode.validate, Bool.and_eq_true, intInHo_eq_true_iff] at h
      obtain ⟨⟨⟨⟨n1, e1, -, -⟩, ⟨n2, e2, -, -⟩⟩, ⟨n3, e3, -, -⟩⟩, ⟨n4, e4, -, -⟩⟩ := h
      have hto : TimingTimecode.to_json (.timecode hh mm ss ff (.tcFormat f)) =
          some (.dict [("hours", hh), ("minutes", mm), ("seconds", ss), ("frames", ff),
            ("format", .str f.toStr)]) := by
        simp [TimingTimecode.to_json, pyStrOpt, asdict_tcFormat,
          asdict_intLike hh n1 e1, asdict_intLike mm n2 e2,
          asdict_intLike ss n3 e3, asdict_intLike ff n4 e4]
      have hfrom : TimingTimecode.from_json
          (.dict [("hours", hh), ("minutes", mm), ("seconds", ss), ("frames", ff),
            ("format", .str f.toStr)]) =
          some (.timecode hh mm ss ff (.tcFormat f)) := by
        simp [TimingTimecode.from_json, getKey, tcFormat_fromString_toStr]
      have hbind : (TimingTimecode.to_json
            (.timecode hh mm ss ff (.tcFormat f))).bind TimingTimecode.from_json =
          some (.timecode hh mm ss ff (.tcFormat f)) := by
        rw [hto]
        simpa using hfrom
      unfold roundTrip
      rw [hbind]
      show pyEq (.timecode hh mm ss ff (.tcFormat f)) (.timecode hh mm ss ff (.tcFormat f)) = true
      rw [pyEq_timecode]
      simp [pyEq_self_intLike hh n1 e1, pyEq_self_intLike mm n2 e2,
        pyEq_self_intLike ss n3 e3, pyEq_self_intLike ff n4 e4, pyEq_tcFormat]
    all_goals simp [TimingTimecode.validate] at h
  all_goals simp [TimingTimecode.validate] at h

/-- `asdict` is the identity on `None`. -/
theorem asdict_none (b : Bool) : asdictF b .none = .none := rfl

/-- `asdict` is the identity on an int literal. -/
theorem asdict_int (b : Bool) (n : Int) : asdictF b (.int n) = .int n := rfl

/-- `asdict` is the identity on a bool literal. -/
theorem asdict_bool (b c : Bool) : asdictF b (.bool c) = .bool c := rfl

/-- `asdict` is the identity on a float literal. -/
theorem asdict_float (b : Bool) (q : ℚ) : asdictF b (.float q) = .float q := rfl

/-- `asdict` is the identity on a string. -/
theorem asdict_str (b : Bool) (s : String) : asdictF b (.str s) = .str s := rfl

/-- Inversion of the closed integer range test. -/
theorem intInCl_eq_true_iff (v : PyVal) (hi : Int) :
    intInCl v hi = true ↔ ∃ n, pyIntLike v = some n ∧ 0 ≤ n ∧ n ≤ hi := by
  unfold intInCl
  cases h : pyIntLike v <;> simp [h]

/-- Round trip of the TimingTimestamp codec on validated values. -/
theorem rt_timestamp (v : PyVal) (h : TimingTimestamp.validate v = true) :
    roundTrip TimingTimestamp.to_json TimingTimestamp.from_json v = true := by
  cases v
  case timestamp s n a =>
    simp only [TimingTimestamp.validate, Bool.and_eq_true, intInCl_eq_true_iff] at h
    obtain ⟨⟨⟨n1, e1, -, -⟩, ⟨n2, e2, -, -⟩⟩, h3⟩ := h
    cases a
    case none =>
        simp [roundTrip, TimingTimestamp.to_json, TimingTimestamp.from_json,
          mkTimestamp, keysIn, getKey, getKeyD,
          asdict_intLike s n1 e1, asdict_intLike n n2 e2, pyEq_timestamp, pyEq_none,
          pyEq_self_intLike s n1 e1, pyEq_self_intLike n n2 e2]
    case int m =>
        simp [roundTrip, TimingTimestamp.to_json, TimingTimestamp.from_json,
          mkTimestamp, keysIn, getKey, getKeyD, asdict_int,
          asdict_intLike s n1 e1, asdict_intLike n n2 e2, pyEq_timestamp, pyEq_int,
          pyEq_self_intLike s n1 e1, pyEq_self_intLike n n2 e2]
    case bool bb =>
        simp [roundTrip, TimingTimestamp.to_json, TimingTimestamp.from_json,
          mkTimestamp, keysIn, getKey, getKeyD, asdict_bool,
          asdict_intLike s n1 e1, asdict_intLike n n2 e2, pyEq_timestamp, pyEq_bool,
          pyEq_self_intLike s n1 e1, pyEq_self_intLike n n2 e2]
    all_goals simp [intInCl, pyIntLike] at h3
  all_goals simp [TimingTimestamp.validate] at h

/-- Inversion of the non-negative real test. -/
theorem realNonNeg_eq_true_iff (v : PyVal) :
    realNonNeg v = true ↔ ∃ q, pyRealVal v = some q ∧ 0 ≤ q := by
  unfold realNonNeg
  cases h : pyRealVal v <;> simp [h]

/-- Round trip of the LensFoVScale codec on validated values. -/
theorem rt_fov (v : PyVal) (h : LensFoVScale.validate v = true) :
    roundTrip LensFoVScale.to_json LensFoVScale.from_json v = true := by
  cases v
  case orientations hv vv =>
    simp only [LensFoVScale.validate, Bool.and_eq_true, realNonNeg_eq_true_iff] at h
    obtain ⟨⟨q1, e1, -⟩, ⟨q2, e2, -⟩⟩ := h
    simp [roundTrip, LensFoVScale.to_json, LensFoVScale.from_json,
      mkOrientations, keysIn, getKey, getKeyD,
      asdict_realLike hv q1 e1, asdict_realLike vv q2 e2, pyEq_orientations,
      pyEq_self_realLike hv q1 e1, pyEq_self_realLike vv q2 e2]
  all_goals simp [LensFoVScale.validate] at h

/-- Inversion of the optional real coefficient test. -/
theorem optReal_eq_true_iff (v : PyVal) :
    optReal v = true ↔ (v = .none ∨ ∃ q, pyRealVal v = some q) := by
  cases v <;> simp [optReal, pyRealVal]

/-- `asdict` is the identity on an absent-or-real coefficient. -/
theorem asdict_optRealLike (x : PyVal) (h : x = .none ∨ ∃ q, pyRealVal x = some q)
    (b : Bool) : asdictF b x = x := by
  rcases h with rfl | ⟨q, hq⟩
  · rfl
  · exact asdict_realLike x q hq b

/-- An absent-or-real coefficient equals itself under `pyEq`. -/
theorem pyEq_self_optRealLike (x : PyVal) (h : x = .none ∨ ∃ q, pyRealVal x = some q) :
    pyEq x x = true := by
  rcases h with rfl | ⟨q, hq⟩
  · rfl
  · exact pyEq_self_realLike x q hq

/-- Round trip of the LensExposureFalloff codec on validated values. -/
theorem rt_falloff (v : PyVal) (h : LensExposureFalloff.validate v = true) :
    roundTrip LensExposureFalloff.to_json LensExposureFalloff.from_json v = true := by
  cases v
  case exposureFalloff a1 a2 a3 =>
    simp only [LensExposureFalloff.validate, Bool.and_eq_true, optReal_eq_true_iff] at h
    obtain ⟨⟨⟨-, h1⟩, h2⟩, h3⟩ := h
    simp [roundTrip, LensExposureFalloff.to_json, LensExposureFalloff.from_json,
      mkExposureFalloff, keysIn, getKey, getKeyD,
      asdict_optRealLike a1 h1, asdict_optRealLike a2 h2, asdict_optRealLike a3 h3,
      pyEq_exposureFalloff,
      pyEq_self_optRealLike a1 h1, pyEq_self_optRealLike a2 h2, pyEq_self_optRealLike a3 h3]
  all_goals simp [LensExposureFalloff.validate] at h

/-- Round trip of the LensEncoders codec on validated values. -/
theorem rt_encoders (v : PyVal) (h : LensEncoders.validate v = true) :
    roundTrip LensEncoders.to_json LensEncoders.from_json v = true := by
  cases v
  case encoders f i z =>
    simp only [LensEncoders.validate, Bool.and_eq_true, encOk_eq_true_iff] at h
    obtain ⟨⟨⟨-, hf⟩, hi⟩, hz⟩ := h
    rcases hf with rfl | ⟨qf, rfl, -, -⟩ <;> rcases hi with rfl | ⟨qi, rfl, -, -⟩ <;>
      rcases hz with rfl | ⟨qz, rfl, -, -⟩ <;>
      simp [roundTrip, LensEncoders.to_json, LensEncoders.from_json, filterNones,
        mkEncoders, keysIn, getKey, getKeyD, asdict_none, asdict_float,
        pyEq_encoders, pyEq_none, pyEq_float]
  all_goals simp [LensEncoders.validate] at h

/-- Inversion of the frequency clause. -/
theorem isPosFloat_eq_true_iff (v : PyVal) :
    isPosFloat v = true ↔ ∃ q, v = .float q ∧ 0 < q := by
  cases v <;> simp [isPosFloat]

/-- Inversion of the bool clause. -/
theorem isBoolPy_eq_true_iff (v : PyVal) :
    isBoolPy v = true ↔ ∃ b, v = .bool b := by
  cases v <;> simp [isBoolPy]

/-- Inversion of the source clause. -/
theorem isSourceEnum_eq_true_iff (v : PyVal) :
    isSourceEnum v = true ↔ ∃ s, v = .syncSource s := by
  cases v <;> simp [isSourceEnum]
  case syncSource s => exact ⟨s, trivial⟩

/-- Inversion of the `ptp_master` clause. -/
theorem optMacOk_eq_true_iff (v : PyVal) :
    optMacOk v = true ↔ (v = .none ∨ ∃ m, v = .str m ∧ pyMacOk m = true) := by
  cases v <;> simp [optMacOk]

/-- Inversion of the `ptp_offset` clause. -/
theorem optFloatPy_eq_true_iff (v : PyVal) :
    optFloatPy v = true ↔ (v = .none ∨ ∃ q, v = .float q) := by
  cases v <;> simp [optFloatPy]

/-- Inversion of the `ptp_domain` clause. -/
theorem optDomOk_eq_true_iff (v : PyVal) :
    optDomOk v = true ↔
      (v = .none ∨ (∃ n, v = .int n ∧ 0 ≤ n) ∨ ∃ b, v = .bool b) := by
  cases v <;> simp [optDomOk]

/-- Inversion of the `enabled` clause. -/
theorem optBoolPy_eq_true_iff (v : PyVal) :
    optBoolPy v = true ↔ (v = .none ∨ ∃ b, v = .bool b) := by
  cases v <;> simp [optBoolPy]

set_option maxHeartbeats 1600000 in
/-- Round trip of the TimingSynchronization codec on validated values whose
`offsets` attribute is absent. -/
theorem rt_sync (fr lk src mac off dom en : PyVal)
    (h : TimingSynchronization.validate
      (.synchronization fr lk src mac off dom .none en) = true) :
    roundTrip TimingSynchronization.to_json TimingSynchronization.from_json
      (.synchronization fr lk src mac off dom .none en) = true := by
  simp only [TimingSynchronization.validate, Bool.and_eq_true,
    isPosFloat_eq_true_iff, isBoolPy_eq_true_iff, isSourceEnum_eq_true_iff,
    optMacOk_eq_true_iff, optFloatPy_eq_true_iff, optDomOk_eq_true_iff,
    optBoolPy_eq_true_iff] at h
  obtain ⟨⟨⟨⟨⟨⟨⟨⟨q, rfl, -⟩, b, rfl⟩, sc, rfl⟩, hmac⟩, hoff⟩, hdom⟩, -⟩, hen⟩ := h
  rcases hmac with rfl | ⟨m, rfl, -⟩ <;>
    rcases hoff with rfl | ⟨qo, rfl⟩ <;>
    rcases hdom with rfl | ⟨nd, rfl, -⟩ | ⟨bd, rfl⟩ <;>
    rcases hen with rfl | ⟨be, rfl⟩ <;>
    simp [roundTrip, TimingSynchronization.to_json, TimingSynchronization.from_json,
      filterNones, setSourceStr, mkSynchronization, keysIn, getKey, getKeyD, pyStrOpt,
      asdict_none, asdict_float, asdict_bool, asdict_int, asdict_str, asdict_syncSource,
      pyEq_synchronization, pyEq_none, pyEq_float, pyEq_bool, pyEq_int, pyEq_str,
      pyEq_str_syncSource]

/-- C1 (amended): the round-trip law `from_json(to_json(v)) == v` holds on
every validated value for the ShutterAngle, TimingTimecode, TimingTimestamp,
LensEncoders, LensFoVScale and LensExposureFalloff descriptors, and for
TimingSynchronization on validated values whose `offsets` attribute is absent.
The amendment forced by the counterexample: the law does not hold for the
Transforms descriptor (and for Synchronization values with a populated
`offsets` object), because `asdict` flattens nested dataclasses into plain
dicts that `from_json` passes to the dataclass constructor unconverted. -/
theorem c1_round_trip_amended :
    (∀ v, ShutterAngle.validate v = true →
      roundTrip ShutterAngle.to_json ShutterAngle.from_json v = true) ∧
    (∀ v, TimingTimecode.validate v = true →
      roundTrip TimingTimecode.to_json TimingTimecode.from_json v = true) ∧
    (∀ v, TimingTimestamp.validate v = true →
      roundTrip TimingTimestamp.to_json TimingTimestamp.from_json v = true) ∧
    (∀ v, LensEncoders.validate v = true →
      roundTrip LensEncoders.to_json LensEncoders.from_json v = true) ∧
    (∀ v, LensFoVScale.validate v = true →
      roundTrip LensFoVScale.to_json LensFoVScale.from_json v = true) ∧
    (∀ v, LensExposureFalloff.validate v = true →
      roundTrip LensExposureFalloff.to_json LensExposureFalloff.from_json v = true) ∧
    (∀ fr lk src mac off dom en,
      TimingSynchronization.validate
        (.synchronization fr lk src mac off dom .none en) = true →
      roundTrip TimingSynchronization.to_json TimingSynchronization.from_json
        (.synchronization fr lk src mac off dom .none en) = true) :=
  ⟨rt_shutter, rt_timecode, rt_timestamp, rt_encoders, rt_fov, rt_falloff, rt_sync⟩

/-- Witness for the amended C1: each codec applied to one concrete validated
value of its descriptor. -/
theorem c1_round_trip_witness :
    (ShutterAngle.validate (.int 180) = true ∧
      roundTrip ShutterAngle.to_json ShutterAngle.from_json (.int 180) = true) ∧
    (TimingTimecode.validate
        (.timecode (.int 1) (.int 2) (.int 3) (.int 4) (.tcFormat .f25)) = true ∧
      roundTrip TimingTimecode.to_json TimingTimecode.from_json
        (.timecode (.int 1) (.int 2) (.int 3) (.int 4) (.tcFormat .f25)) = true) ∧
    (TimingTimestamp.validate (.timestamp (.int 100) (.int 200) .none) = true ∧
      roundTrip TimingTimestamp.to_json TimingTimestamp.from_json
        (.timestamp (.int 100) (.int 200) .none) = true) ∧
    (LensEncoders.validate (.encoders (.float 1) .none .none) = true ∧
      roundTrip LensEncoders.to_json LensEncoders.from_json
        (.encoders (.float 1) .none .none) = true) ∧
    (LensFoVScale.validate (.orientations (.float 0) (.float 2)) = true ∧
      roundTrip LensFoVScale.to_json LensFoVScale.from_json
        (.orientations (.float 0) (.float 2)) = true) ∧
    (LensExposureFalloff.validate (.exposureFalloff (.float 1) .none .none) = true ∧
      roundTrip LensExposureFalloff.to_json LensExposureFalloff.from_json
        (.exposureFalloff (.float 1) .none .none) = true) ∧
    (TimingSynchronization.validate
        (.synchronization (.float 24) (.bool true) (.syncSource .ptp)
          .none .none .none .none .none) = true ∧
      roundTrip TimingSynchronization.to_json TimingSynchronization.from_json
        (.synchronization (.float 24) (.bool true) (.syncSource .ptp)
          .none .none .none .none .none) = true) :=
  ⟨⟨by decide, c1_round_trip_amended.1 _ (by decide)⟩,
   ⟨by decide, c1_round_trip_amended.2.1 _ (by decide)⟩,
   ⟨by decide, c1_round_trip_amended.2.2.1 _ (by decide)⟩,
   ⟨by decide, c1_round_trip_amended.2.2.2.1 _ (by decide)⟩,
   ⟨by decide, c1_round_trip_amended.2.2.2.2.1 _ (by decide)⟩,
   ⟨by decide, c1_round_trip_amended.2.2.2.2.2.1 _ (by decide)⟩,
   ⟨by decide, c1_round_trip_amended.2.2.2.2.2.2 _ _ _ _ _ _ _ (by decide)⟩⟩

/-- A validated Transforms value: one transform with real-valued translation
and rotation and no optional attributes. -/
def c1X : PyVal :=
  .list [.transform (.vector3 (.float 1) (.float 2) (.float 3))
    (.rotator3 (.float 0) (.float 0) (.float 0)) .none .none .none]

/-- Its wire form: `asdict` has flattened the nested dataclasses into plain
dicts and dropped the `None`-valued optional keys. -/
def c1J : PyVal :=
  .list [.dict [("translation", .dict [("x", .float 1), ("y", .float 2), ("z", .float 3)]),
                ("rotation", .dict [("pan", .float 0), ("tilt", .float 0), ("roll", .float 0)])]]

/-- The decoded value: `Transform(**v)` keeps the translation and rotation as
plain dicts instead of rebuilding Vector3/Rotator3 values. -/
def c1Y : PyVal :=
  .list [.transform (.dict [("x", .float 1), ("y", .float 2), ("z", .float 3)])
    (.dict [("pan", .float 0), ("tilt", .float 0), ("roll", .float 0)]) .none .none .none]

/-- Counterexample for C1 as stated: the round-trip law fails for the
Transforms field descriptor.  The validated value `c1X` encodes to `c1J` and
decodes to `c1Y`, whose translation is a dict, not a Vector3 — so the decoded
value is not structurally equal to the original. -/
theorem c1_round_trip_counterexample :
    Transforms.validate c1X = true ∧
    Transforms.to_json c1X = some c1J ∧
    Transforms.from_json c1J = some c1Y ∧
    pyEq c1Y c1X = false ∧
    roundTrip Transforms.to_json Transforms.from_json c1X = false :=
  ⟨rfl, rfl, rfl, rfl, rfl⟩

/-- `toWire(v)` checked against the descriptor's schema fragment; false when
encoding raises. -/
def schemaConf (tj : PyVal → Option PyVal) (sch : Schema) (v : PyVal) : Bool :=
  match tj v with
  | some j => schemaAccepts sch j
  | _ => false

/-- Inversion of the `offsets` clause. -/
theorem optOffsetsOk_eq_true_iff (v : PyVal) :
    optOffsetsOk v = true ↔
      (v = .none ∨ ∃ a b c, v = .syncOffsets a b c ∧
        offsetsFieldOk a = true ∧ offsetsFieldOk b = true ∧ offsetsFieldOk c = true) := by
  cases v <;> simp [optOffsetsOk]
  case syncOffsets a b c =>
    constructor
    · rintro ⟨⟨h1, h2⟩, h3⟩
      exact ⟨a, b, c, ⟨rfl, rfl, rfl⟩, h1, h2, h3⟩
    · rintro ⟨a2, b2, c2, ⟨rfl, rfl, rfl⟩, h1, h2, h3⟩
      exact ⟨⟨h1, h2⟩, h3⟩

/-- `asdict` of a fully populated float offsets object. -/
theorem asdict_syncOffsets_floats (a c d : ℚ) :
    asdictF false (.syncOffsets (.float a) (.float c) (.float d)) =
      .dict [("translation", .float a), ("rotation", .float c), ("encoders", .float d)] := rfl

set_option maxHeartbeats 3200000 in
/-- C6 (amended): encoded values validate against the descriptor's schema
fragment, and representative rejected values fail it, with the amendments the
counterexample forces on the TimingSynchronization part: the claim holds for
ShutterAngle on its int values (shutter angles 0 and 360001 are rejected by
both validate and the schema), and for TimingSynchronization on validated
values whose `ptp_master` is absent or already in the uppercase colon-separated
form the schema pattern demands, whose `ptp_domain` is not a bool, and whose
`offsets` object is absent or fully populated with floats. -/
theorem c6_schema_amended :
    (∀ n : Int, ShutterAngle.validate (.int n) = true →
      schemaConf ShutterAngle.to_json ShutterAngle.make_json_schema (.int n) = true) ∧
    (ShutterAngle.validate (.int 0) = false ∧
     schemaAccepts ShutterAngle.make_json_schema (.int 0) = false ∧
     ShutterAngle.validate (.int 360001) = false ∧
     schemaAccepts ShutterAngle.make_json_schema (.int 360001) = false) ∧
    (∀ fr lk src mac off dom offs en,
      TimingSynchronization.validate
        (.synchronization fr lk src mac off dom offs en) = true →
      (mac = .none ∨ ∃ m, mac = .str m ∧ SchemaPattern.matches .macUpperColon m = true) →
      (∀ b, dom ≠ .bool b) →
      (offs = .none ∨ ∃ a b c, offs = .syncOffsets (.float a) (.float b) (.float c)) →
      schemaConf TimingSynchronization.to_json TimingSynchronization.make_json_schema
        (.synchronization fr lk src mac off dom offs en) = true) := by
  refine ⟨?_, ⟨by decide, by decide, by decide, by decide⟩, ?_⟩
  · intro n h
    simp [ShutterAngle.validate, pyIntLike] at h
    simp [schemaConf, ShutterAngle.to_json, ShutterAngle.make_json_schema, schemaAccepts]
    omega
  · intro fr lk src mac off dom offs en h hmac hdom hoffs
    simp only [TimingSynchronization.validate, Bool.and_eq_true,
      isPosFloat_eq_true_iff, isBoolPy_eq_true_iff, isSourceEnum_eq_true_iff,
      optFloatPy_eq_true_iff, optDomOk_eq_true_iff] at h
    obtain ⟨⟨⟨⟨⟨⟨⟨⟨q, rfl, hq⟩, b, rfl⟩, sc, rfl⟩, -⟩, hoff⟩, hdomv⟩, -⟩, henv⟩ := h
    have hq' : 0 ≤ q := le_of_lt hq
    have henv' := (optBoolPy_eq_true_iff en).mp henv
    rcases hmac with rfl | ⟨m, rfl, hm⟩ <;>
      rcases hoffs with rfl | ⟨oa, ob, oc, rfl⟩ <;>
      rcases hoff with rfl | ⟨qo, rfl⟩ <;>
      rcases henv' with rfl | ⟨be, rfl⟩ <;>
      rcases hdomv with rfl | ⟨nd, rfl, hnd⟩ | ⟨bd, rfl⟩ <;>
      cases sc <;>
      first
      | exact absurd rfl (hdom _)
      | simp_all [schemaConf, TimingSynchronization.to_json,
          TimingSynchronization.make_json_schema, schemaAccepts, schemaProps,
          setSourceStr, filterNones, getKey, keysIn, pyStrOpt, SyncSource.toStr,
          asdict_none, asdict_float, asdict_bool, asdict_int, asdict_str,
          asdict_syncSource, asdict_syncOffsets_floats]

/-- A validated Synchronization value with an uppercase colon-separated
`ptp_master`, an int `ptp_domain`, a fully populated float offsets object and
an `enabled` flag. -/
def c6W : PyVal :=
  .synchronization (.float 24) (.bool true) (.syncSource .ptp)
    (.str "AB:CD:EF:01:23:45") .none (.int 0)
    (.syncOffsets (.float 1) (.float 2) (.float 3)) (.bool false)

/-- Witness for the amended C6: a concrete shutter angle and a concrete
synchronization value whose encodings pass their schema fragments. -/
theorem c6_schema_witness :
    ShutterAngle.validate (.int 180) = true ∧
    schemaConf ShutterAngle.to_json ShutterAngle.make_json_schema (.int 180) = true ∧
    TimingSynchronization.validate c6W = true ∧
    schemaConf TimingSynchronization.to_json TimingSynchronization.make_json_schema
      c6W = true :=
  ⟨by decide, c6_schema_amended.1 180 (by decide), by decide,
   c6_schema_amended.2.2 (.float 24) (.bool true) (.syncSource .ptp)
     (.str "AB:CD:EF:01:23:45") .none (.int 0)
     (.syncOffsets (.float 1) (.float 2) (.float 3)) (.bool false)
     (by decide)
     (Or.inr ⟨"AB:CD:EF:01:23:45", rfl, by decide⟩)
     (fun b h => PyVal.noConfusion h)
     (Or.inr ⟨1, 2, 3, rfl⟩)⟩

/-- A validated Synchronization value whose `ptp_master` is in the lowercase
dash-separated form that `validate` accepts. -/
def c6X : PyVal :=
  .synchronization (.float 24) (.bool true) (.syncSource .ptp)
    (.str "ab-cd-ef-01-23-45") .none .none .none .none

/-- Counterexample for C6 as stated: `validate` accepts the lowercase
dash-separated MAC address, but the encoded value then fails the schema
fragment, whose `ptp_master` pattern only admits uppercase colon-separated
MAC addresses. -/
theorem c6_schema_counterexample :
    TimingSynchronization.validate c6X = true ∧
    schemaConf TimingSynchronization.to_json TimingSynchronization.make_json_schema
      c6X = false :=
  ⟨by decide, by decide⟩
